import Mathlib

/-!
Shallow embedding of the fixed-asset verification core
(`api/verification/db_manager.py`, `api/cycles/db_manager.py`,
`api/verification/queries.py`, `db_models/*`).

The relational store is modelled as an explicit state `DB` holding the three
tables as lists in insertion order, together with the auto-increment counters
for the primary keys.  Timestamps (`created_at`, `verified_at`, `locked_at`)
are natural numbers; every operation that calls `datetime.now` takes the
current time `now : Nat` as an argument.  SQL `ORDER BY` clauses are embedded
as insertion sorts, and SQLAlchemy's `scalar_one_or_none` is embedded with its
real semantics: zero rows give `none`, one row gives `some`, two or more rows
raise `MultipleResultsFound`.

Each operation returns `Except DBError (result × DB)`: a raised exception
aborts the surrounding transaction, so the error case carries no state and
the pre-state is unchanged (nothing was committed).
-/

/-- Row of the `assets` table (`db_models/asset.py`). -/
structure Asset where
  id : Nat
  asset_code : String
  name : String
  owner_id : Option Nat
  is_active : Bool
deriving DecidableEq

/-- Row of the `verification_cycles` table (`db_models/verification_cycle.py`). -/
structure VerificationCycle where
  id : Nat
  tag : String
  status : String
  created_at : Nat
  locked_at : Option Nat
deriving DecidableEq

/-- Row of the `asset_verifications` table (`db_models/asset_verification.py`).
`photos` is stored in the source as the JSON serialization of the uploaded key
list (`json.dumps`); since no operation ever inspects the serialized text and
the serialization is injective on the non-empty lists that reach it, the
column is embedded as the list itself. `location_lat`/`location_lng` are
opaque stored payloads (never computed with), embedded as integers. -/
structure AssetVerification where
  id : Nat
  asset_id : Nat
  cycle_id : Nat
  performed_by : Option String
  source : String
  status : String
  condition : Option String
  location_lat : Option Int
  location_lng : Option Int
  photos : Option (List String)
  notes : Option String
  override_of_verification_id : Option Nat
  override_reason : Option String
  created_at : Nat
  verified_at : Option Nat
deriving DecidableEq

/-- The relational store: the three tables in insertion order plus the
auto-increment counters for their primary keys. -/
structure DB where
  assets : List Asset
  cycles : List VerificationCycle
  verifications : List AssetVerification
  next_asset_id : Nat
  next_cycle_id : Nat
  next_verification_id : Nat
deriving DecidableEq

/-- The exceptions raised by the two db_manager modules, plus SQLAlchemy's
`MultipleResultsFound` (raised by `scalar_one_or_none` on two or more rows)
and the `ValueError` used by `create_cycle` for an invalid initial status. -/
inductive DBError where
  | cycleNotFound
  | assetNotFound
  | verificationNotFound
  | cycleLocked
  | assetAlreadyExists
  | cycleStatusError
  | duplicateTag
  | invalidStatus
  | multipleResultsFound
deriving DecidableEq

deriving instance DecidableEq for Except

/-- SQLAlchemy `Result.scalar_one_or_none`: `none` on zero rows, the row on
exactly one, and `MultipleResultsFound` on two or more. -/
def scalarOneOrNone {α : Type} (rows : List α) : Except DBError (Option α) :=
  match rows with
  | [] => .ok none
  | [x] => .ok (some x)
  | _ :: _ :: _ => .error .multipleResultsFound

/-- Insert `x` into a list sorted by the boolean relation `le`, keeping it
sorted (used to embed SQL `ORDER BY`). -/
def insertBy {α : Type} (le : α → α → Bool) (x : α) : List α → List α
  | [] => [x]
  | y :: ys => if le x y then x :: y :: ys else y :: insertBy le x ys

/-- Insertion sort by the boolean relation `le` (embeds SQL `ORDER BY`). -/
def sortBy {α : Type} (le : α → α → Bool) : List α → List α
  | [] => []
  | x :: xs => insertBy le x (sortBy le xs)

/-- Comparator for `ORDER BY created_at DESC` on verifications. -/
def newerFirst (a b : AssetVerification) : Bool :=
  decide (b.created_at ≤ a.created_at)

/-- Structural lexicographic comparison of character lists by codepoint,
used to embed SQL string collation executably. -/
def charListLe : List Char → List Char → Bool
  | [], _ => true
  | _ :: _, [] => false
  | c :: cs, d :: ds =>
    if c < d then true
    else if d < c then false
    else charListLe cs ds

/-- Lexicographic string comparison (agrees with the library order on
`String`, see `strLe_iff`). -/
def strLe (s t : String) : Bool :=
  charListLe s.data t.data

/-- Comparator for `ORDER BY asset_code ASC` on assets. -/
def codeAsc (a b : Asset) : Bool :=
  strLe a.asset_code b.asset_code

/-- Query builder `select_cycle_by_id` (`api/verification/queries.py`). -/
def select_cycle_by_id (db : DB) (cycle_id : Nat) : List VerificationCycle :=
  db.cycles.filter (fun c => c.id == cycle_id)

/-- Query builder `select_asset_by_code` (`api/verification/queries.py`). -/
def select_asset_by_code (db : DB) (asset_code : String) : List Asset :=
  db.assets.filter (fun a => a.asset_code == asset_code)

/-- Inline query `select(Asset).where(Asset.id == asset_id)`. -/
def select_asset_by_id (db : DB) (asset_id : Nat) : List Asset :=
  db.assets.filter (fun a => a.id == asset_id)

/-- Inline query `select(AssetVerification).where(id == verification_id)`. -/
def select_verification_by_id (db : DB) (verification_id : Nat) : List AssetVerification :=
  db.verifications.filter (fun v => v.id == verification_id)

/-- The unsorted rows of the pair query: all verifications whose
`asset_id`/`cycle_id` match. -/
def pairRows (db : DB) (asset_id cycle_id : Nat) : List AssetVerification :=
  db.verifications.filter (fun v => v.asset_id == asset_id && v.cycle_id == cycle_id)

/-- Query builder `select_verifications_for_asset_cycle`
(`api/verification/queries.py`): all rows for the pair, newest first by
`created_at`. -/
def select_verifications_for_asset_cycle (db : DB) (asset_id cycle_id : Nat) :
    List AssetVerification :=
  sortBy newerFirst (pairRows db asset_id cycle_id)

/-- `get_cycle_or_raise` (`api/verification/db_manager.py`): fetch a cycle by
id, raising `CycleNotFoundError` when absent. -/
def get_cycle_or_raise (db : DB) (cycle_id : Nat) : Except DBError VerificationCycle :=
  match scalarOneOrNone (select_cycle_by_id db cycle_id) with
  | .error e => .error e
  | .ok none => .error .cycleNotFound
  | .ok (some cycle) => .ok cycle

/-- `ensure_cycle_exists` (`api/verification/db_manager.py`): same body as
`get_cycle_or_raise`. -/
def ensure_cycle_exists (db : DB) (cycle_id : Nat) : Except DBError VerificationCycle :=
  match scalarOneOrNone (select_cycle_by_id db cycle_id) with
  | .error e => .error e
  | .ok none => .error .cycleNotFound
  | .ok (some cycle) => .ok cycle

/-- `check_cycle_not_locked` (`api/verification/db_manager.py`): ensure the
cycle exists and is not LOCKED. -/
def check_cycle_not_locked (db : DB) (cycle_id : Nat) : Except DBError VerificationCycle :=
  match get_cycle_or_raise db cycle_id with
  | .error e => .error e
  | .ok cycle => if cycle.status == "LOCKED" then .error .cycleLocked else .ok cycle

/-- `get_asset_or_raise` (`api/verification/db_manager.py`). -/
def get_asset_or_raise (db : DB) (asset_id : Nat) : Except DBError Asset :=
  match scalarOneOrNone (select_asset_by_id db asset_id) with
  | .error e => .error e
  | .ok none => .error .assetNotFound
  | .ok (some asset) => .ok asset

/-- `get_verification_or_raise` (`api/verification/db_manager.py`). -/
def get_verification_or_raise (db : DB) (verification_id : Nat) :
    Except DBError AssetVerification :=
  match scalarOneOrNone (select_verification_by_id db verification_id) with
  | .error e => .error e
  | .ok none => .error .verificationNotFound
  | .ok (some v) => .ok v

/-- `find_existing_verification` (`api/verification/db_manager.py`): the
ordered pair query run through `scalar_one_or_none` (which raises
`MultipleResultsFound` on two or more rows — the query has no `LIMIT 1`). -/
def find_existing_verification (db : DB) (asset_id cycle_id : Nat) :
    Except DBError (Option AssetVerification) :=
  scalarOneOrNone (select_verifications_for_asset_cycle db asset_id cycle_id)

/-- Python truthiness guard `photos_text = json.dumps(photos) if photos else
None`: `None` and the empty list are falsy. -/
def photos_text (photos : Option (List String)) : Option (List String) :=
  match photos with
  | none => none
  | some ps => if ps.isEmpty then none else some ps

/-- `lookup_asset_for_cycle` (`api/verification/db_manager.py`): resolve an
asset by code for a cycle; the effective verification is the first row of the
newest-first pair query. -/
def lookup_asset_for_cycle (db : DB) (asset_code : String) (cycle_id : Nat) :
    Except DBError (Option Asset × Option AssetVerification × Bool) :=
  match get_cycle_or_raise db cycle_id with
  | .error e => .error e
  | .ok _ =>
    match scalarOneOrNone (select_asset_by_code db asset_code) with
    | .error e => .error e
    | .ok none => .ok (none, none, false)
    | .ok (some asset) =>
      match select_verifications_for_asset_cycle db asset.id cycle_id with
      | [] => .ok (some asset, none, false)
      | effective :: _ => .ok (some asset, some effective, true)

/-- `create_asset_and_initial_verification` (`api/verification/db_manager.py`):
atomically insert a new `Asset` (`is_active=True`, no owner) and its first
`AssetVerification` (no `verified_at` passed, so it stays null).  The cycle
must exist (its lock status is not checked); `asset_code` uniqueness is
checked optimistically before the insert, and the database unique constraint
(raising `IntegrityError` at flush, caught and rolled back) is the final
authority. `owner_hint` is accepted but unused, as in the source. -/
def create_asset_and_initial_verification (db : DB) (now : Nat)
    (asset_code name : String) (cycle_id : Nat)
    (owner_hint performed_by : Option String) (source status : String)
    (photos : Option (List String)) (location_lat location_lng : Option Int)
    (notes : Option String) :
    Except DBError ((Asset × AssetVerification) × DB) :=
  match ensure_cycle_exists db cycle_id with
  | .error e => .error e
  | .ok _ =>
    match scalarOneOrNone (select_asset_by_code db asset_code) with
    | .error e => .error e
    | .ok (some _) => .error .assetAlreadyExists
    | .ok none =>
      -- flush: the unique constraint on asset_code is re-checked by the store;
      -- an IntegrityError is caught, the transaction rolled back, and
      -- AssetAlreadyExistsError raised.
      if (db.assets.filter (fun a => a.asset_code == asset_code)).isEmpty then
        let new_asset : Asset :=
          { id := db.next_asset_id, asset_code := asset_code, name := name,
            owner_id := none, is_active := true }
        let verification : AssetVerification :=
          { id := db.next_verification_id, asset_id := new_asset.id,
            cycle_id := cycle_id, performed_by := performed_by,
            source := source, status := status, condition := none,
            location_lat := location_lat, location_lng := location_lng,
            photos := photos_text photos, notes := notes,
            override_of_verification_id := none, override_reason := none,
            created_at := now, verified_at := none }
        .ok ((new_asset, verification),
          { db with
            assets := db.assets ++ [new_asset],
            verifications := db.verifications ++ [verification],
            next_asset_id := db.next_asset_id + 1,
            next_verification_id := db.next_verification_id + 1 })
      else
        .error .assetAlreadyExists

/-- `create_verification` (`api/verification/db_manager.py`): duplicate-aware
creation.  When a row for the pair already exists and `allow_duplicate` is
false, return `(none, existing, true)` without writing; otherwise insert a new
row with `verified_at = now`. -/
def create_verification (db : DB) (now : Nat) (asset_id cycle_id : Nat)
    (performed_by : Option String) (source status : String)
    (condition : Option String) (location_lat location_lng : Option Int)
    (photos : Option (List String)) (notes : Option String)
    (allow_duplicate : Bool) :
    Except DBError ((Option AssetVerification × Option AssetVerification × Bool) × DB) :=
  match check_cycle_not_locked db cycle_id with
  | .error e => .error e
  | .ok _ =>
    match get_asset_or_raise db asset_id with
    | .error e => .error e
    | .ok _ =>
      match find_existing_verification db asset_id cycle_id with
      | .error e => .error e
      | .ok existing =>
        if existing.isSome && !allow_duplicate then
          .ok ((none, existing, true), db)
        else
          let verification : AssetVerification :=
            { id := db.next_verification_id, asset_id := asset_id,
              cycle_id := cycle_id, performed_by := performed_by,
              source := source, status := status, condition := condition,
              location_lat := location_lat, location_lng := location_lng,
              photos := photos_text photos, notes := notes,
              override_of_verification_id := none, override_reason := none,
              created_at := now, verified_at := some now }
          .ok ((some verification, none, false),
            { db with
              verifications := db.verifications ++ [verification],
              next_verification_id := db.next_verification_id + 1 })

/-- `create_override` (`api/verification/db_manager.py`): insert a correction
row chained onto an existing verification.  `asset_id`/`cycle_id` are copied
from the original, `override_of_verification_id` points at it, and
`verified_at = now`.  The `source` argument defaults to `"OVERRIDDEN"` in the
source signature. -/
def create_override (db : DB) (now : Nat) (verification_id : Nat)
    (performed_by : Option String) (source status : String)
    (condition : Option String) (location_lat location_lng : Option Int)
    (photos : Option (List String)) (notes : Option String)
    (override_reason : String) :
    Except DBError (AssetVerification × DB) :=
  match get_verification_or_raise db verification_id with
  | .error e => .error e
  | .ok original =>
    match check_cycle_not_locked db original.cycle_id with
    | .error e => .error e
    | .ok _ =>
      let ov : AssetVerification :=
        { id := db.next_verification_id, asset_id := original.asset_id,
          cycle_id := original.cycle_id, performed_by := performed_by,
          source := source, status := status, condition := condition,
          location_lat := location_lat, location_lng := location_lng,
          photos := photos_text photos, notes := notes,
          override_of_verification_id := some verification_id,
          override_reason := some override_reason,
          created_at := now, verified_at := some now }
      .ok (ov,
        { db with
          verifications := db.verifications ++ [ov],
          next_verification_id := db.next_verification_id + 1 })

/-- `get_asset_cycle_detail` (`api/verification/db_manager.py`): the full
newest-first history for the pair, and the effective record — the first
OVERRIDDEN row of the scan, else `history[0]`. -/
def get_asset_cycle_detail (db : DB) (asset_id cycle_id : Nat) :
    Except DBError (Option AssetVerification × List AssetVerification) :=
  match get_asset_or_raise db asset_id with
  | .error e => .error e
  | .ok _ =>
    match get_cycle_or_raise db cycle_id with
    | .error e => .error e
    | .ok _ =>
      match select_verifications_for_asset_cycle db asset_id cycle_id with
      | [] => .ok (none, [])
      | h0 :: rest =>
        match (h0 :: rest).find? (fun v => v.source == "OVERRIDDEN") with
        | some v => .ok (some v, h0 :: rest)
        | none => .ok (some h0, h0 :: rest)

/-- `get_pending_assets` (`api/verification/db_manager.py`): active assets
with no verification row in the cycle (anti-join), ordered by `asset_code`
ascending. -/
def get_pending_assets (db : DB) (cycle_id : Nat) : Except DBError (List Asset) :=
  match get_cycle_or_raise db cycle_id with
  | .error e => .error e
  | .ok _ =>
    let verified_ids :=
      (db.verifications.filter (fun v => v.cycle_id == cycle_id)).map
        (fun v => v.asset_id)
    .ok (sortBy codeAsc
      (db.assets.filter (fun a => a.is_active && !(verified_ids.contains a.id))))

/-- `get_cycle_by_id` (`api/cycles/db_manager.py`): same lookup as
`get_cycle_or_raise`, raising the cycles module's `CycleNotFoundError`. -/
def get_cycle_by_id (db : DB) (cycle_id : Nat) : Except DBError VerificationCycle :=
  match scalarOneOrNone (select_cycle_by_id db cycle_id) with
  | .error e => .error e
  | .ok none => .error .cycleNotFound
  | .ok (some cycle) => .ok cycle

/-- `create_cycle` (`api/cycles/db_manager.py`): new cycle with a unique tag
and initial status DRAFT or ACTIVE. -/
def create_cycle (db : DB) (now : Nat) (tag status : String) :
    Except DBError (VerificationCycle × DB) :=
  if status ≠ "DRAFT" ∧ status ≠ "ACTIVE" then .error .invalidStatus
  else
    match scalarOneOrNone (db.cycles.filter (fun c => c.tag == tag)) with
    | .error e => .error e
    | .ok (some _) => .error .duplicateTag
    | .ok none =>
      let cycle : VerificationCycle :=
        { id := db.next_cycle_id, tag := tag, status := status,
          created_at := now, locked_at := none }
      .ok (cycle,
        { db with cycles := db.cycles ++ [cycle],
                  next_cycle_id := db.next_cycle_id + 1 })

/-- SQLAlchemy ORM in-place row update followed by commit: the cycle row with
the matching id is replaced. -/
def set_cycle (db : DB) (c : VerificationCycle) : DB :=
  { db with cycles := db.cycles.map (fun x => if x.id == c.id then c else x) }

/-- `activate_cycle` (`api/cycles/db_manager.py`): DRAFT to ACTIVE only. -/
def activate_cycle (db : DB) (cycle_id : Nat) :
    Except DBError (VerificationCycle × DB) :=
  match get_cycle_by_id db cycle_id with
  | .error e => .error e
  | .ok cycle =>
    if cycle.status ≠ "DRAFT" then .error .cycleStatusError
    else
      let c := { cycle with status := "ACTIVE" }
      .ok (c, set_cycle db c)

/-- `lock_cycle` (`api/cycles/db_manager.py`): ACTIVE to LOCKED only, setting
`locked_at = now`. -/
def lock_cycle (db : DB) (now : Nat) (cycle_id : Nat) :
    Except DBError (VerificationCycle × DB) :=
  match get_cycle_by_id db cycle_id with
  | .error e => .error e
  | .ok cycle =>
    if cycle.status ≠ "ACTIVE" then .error .cycleStatusError
    else
      let c := { cycle with status := "LOCKED", locked_at := some now }
      .ok (c, set_cycle db c)

/-- `unlock_cycle` (`api/cycles/db_manager.py`): LOCKED to ACTIVE only,
clearing `locked_at`. -/
def unlock_cycle (db : DB) (cycle_id : Nat) :
    Except DBError (VerificationCycle × DB) :=
  match get_cycle_by_id db cycle_id with
  | .error e => .error e
  | .ok cycle =>
    if cycle.status ≠ "LOCKED" then .error .cycleStatusError
    else
      let c := { cycle with status := "ACTIVE", locked_at := none }
      .ok (c, set_cycle db c)

/-- The state-changing core operations, for claims that quantify over every
operation. -/
inductive Op where
  | opCreateVerification (now asset_id cycle_id : Nat)
      (performed_by : Option String) (source status : String)
      (condition : Option String) (location_lat location_lng : Option Int)
      (photos : Option (List String)) (notes : Option String)
      (allow_duplicate : Bool)
  | opCreateOverride (now verification_id : Nat)
      (performed_by : Option String) (source status : String)
      (condition : Option String) (location_lat location_lng : Option Int)
      (photos : Option (List String)) (notes : Option String)
      (override_reason : String)
  | opCreateAssetAndInitialVerification (now : Nat) (asset_code name : String)
      (cycle_id : Nat) (owner_hint performed_by : Option String)
      (source status : String) (photos : Option (List String))
      (location_lat location_lng : Option Int) (notes : Option String)
  | opCreateCycle (now : Nat) (tag status : String)
  | opActivateCycle (cycle_id : Nat)
  | opLockCycle (now cycle_id : Nat)
  | opUnlockCycle (cycle_id : Nat)

/-- Run an operation on the store, keeping only the post-state. -/
def Op.applyDB : Op → DB → Except DBError DB
  | .opCreateVerification now aid cid pb src st cond lat lng ph nts ad, db =>
    (create_verification db now aid cid pb src st cond lat lng ph nts ad).map
      (fun r => r.2)
  | .opCreateOverride now vid pb src st cond lat lng ph nts reason, db =>
    (create_override db now vid pb src st cond lat lng ph nts reason).map
      (fun r => r.2)
  | .opCreateAssetAndInitialVerification now code nm cid oh pb src st ph lat lng nts, db =>
    (create_asset_and_initial_verification db now code nm cid oh pb src st ph lat lng nts).map
      (fun r => r.2)
  | .opCreateCycle now tag status, db => (create_cycle db now tag status).map (fun r => r.2)
  | .opActivateCycle cid, db => (activate_cycle db cid).map (fun r => r.2)
  | .opLockCycle now cid, db => (lock_cycle db now cid).map (fun r => r.2)
  | .opUnlockCycle cid, db => (unlock_cycle db cid).map (fun r => r.2)

/-- Whether an operation is the asset-onboarding operation. -/
def Op.isOnboarding : Op → Prop
  | .opCreateAssetAndInitialVerification _ _ _ _ _ _ _ _ _ _ _ _ => True
  | _ => False

/-- Schema well-formedness: primary keys are unique in each table and the
unique constraint on `asset_code` holds. -/
def DB.wf (db : DB) : Prop :=
  db.cycles.Pairwise (fun a b => a.id ≠ b.id) ∧
  db.assets.Pairwise (fun a b => a.id ≠ b.id) ∧
  db.assets.Pairwise (fun a b => a.asset_code ≠ b.asset_code) ∧
  db.verifications.Pairwise (fun a b => a.id ≠ b.id)

instance (db : DB) : Decidable db.wf := by
  unfold DB.wf
  infer_instance

/-! ### Generic list lemmas: sorting, unique keys, in-place updates -/

theorem mem_insertBy {α : Type} (le : α → α → Bool) (x : α) (l : List α) (a : α) :
    a ∈ insertBy le x l ↔ a = x ∨ a ∈ l := by
  induction l with
  | nil => simp [insertBy]
  | cons y ys ih =>
    cases h : le x y with
    | true => simp [insertBy, h]
    | false =>
      simp only [insertBy, h, Bool.false_eq_true, if_false, List.mem_cons, ih]
      tauto

theorem perm_insertBy {α : Type} (le : α → α → Bool) (x : α) (l : List α) :
    List.Perm (insertBy le x l) (x :: l) := by
  induction l with
  | nil => simp [insertBy]
  | cons y ys ih =>
    cases h : le x y with
    | true => simp [insertBy, h]
    | false =>
      simp only [insertBy, h, Bool.false_eq_true, if_false]
      exact (ih.cons y).trans (List.Perm.swap x y ys)

theorem perm_sortBy {α : Type} (le : α → α → Bool) (l : List α) :
    List.Perm (sortBy le l) l := by
  induction l with
  | nil => simp [sortBy]
  | cons x xs ih => exact (perm_insertBy le x (sortBy le xs)).trans (ih.cons x)

theorem mem_sortBy {α : Type} (le : α → α → Bool) (l : List α) (a : α) :
    a ∈ sortBy le l ↔ a ∈ l :=
  (perm_sortBy le l).mem_iff

theorem pairwise_insertBy {α : Type} (le : α → α → Bool)
    (htrans : ∀ a b c, le a b = true → le b c = true → le a c = true)
    (htot : ∀ a b, le a b = true ∨ le b a = true)
    (x : α) (l : List α) (hl : l.Pairwise (fun a b => le a b = true)) :
    (insertBy le x l).Pairwise (fun a b => le a b = true) := by
  induction l with
  | nil => simp [insertBy]
  | cons y ys ih =>
    rcases List.pairwise_cons.mp hl with ⟨hy, hys⟩
    cases h : le x y with
    | true =>
      simp only [insertBy, h, if_true]
      refine List.pairwise_cons.mpr ⟨?_, hl⟩
      intro b hb
      rcases List.mem_cons.mp hb with rfl | hb'
      · exact h
      · exact htrans x y b h (hy b hb')
    | false =>
      simp only [insertBy, h, Bool.false_eq_true, if_false]
      refine List.pairwise_cons.mpr ⟨?_, ih hys⟩
      intro b hb
      rcases (mem_insertBy le x ys b).mp hb with rfl | hb'
      · rcases htot b y with hxy | hyx
        · rw [h] at hxy; cases hxy
        · exact hyx
      · exact hy b hb'

theorem pairwise_sortBy {α : Type} (le : α → α → Bool)
    (htrans : ∀ a b c, le a b = true → le b c = true → le a c = true)
    (htot : ∀ a b, le a b = true ∨ le b a = true)
    (l : List α) :
    (sortBy le l).Pairwise (fun a b => le a b = true) := by
  induction l with
  | nil => simp [sortBy]
  | cons x xs ih => exact pairwise_insertBy le htrans htot x _ ih

theorem find_first_max {α : Type} (le : α → α → Bool) (p : α → Bool) :
    ∀ (l : List α), l.Pairwise (fun a b => le a b = true) →
      ∀ e, l.find? p = some e → ∀ v ∈ l, p v = true → v = e ∨ le e v = true := by
  intro l
  induction l with
  | nil => intro _ e he; simp [List.find?] at he
  | cons y ys ih =>
    intro hl e he v hv hpv
    rcases List.pairwise_cons.mp hl with ⟨hy, hys⟩
    cases hpy : p y with
    | true =>
      rw [List.find?_cons_of_pos _ hpy] at he
      injection he with he
      subst he
      rcases List.mem_cons.mp hv with rfl | hv'
      · exact Or.inl rfl
      · exact Or.inr (hy v hv')
    | false =>
      rw [List.find?_cons_of_neg _ (by simp [hpy])] at he
      rcases List.mem_cons.mp hv with rfl | hv'
      · rw [hpy] at hpv; cases hpv
      · exact ih hys e he v hv' hpv

theorem map_id_of_mem {α : Type} (f : α → α) :
    ∀ (l : List α), (∀ x ∈ l, f x = x) → l.map f = l := by
  intro l
  induction l with
  | nil => intro _; rfl
  | cons y ys ih =>
    intro h
    simp only [List.map_cons, h y (List.mem_cons_self y ys)]
    rw [ih (fun x hx => h x (List.mem_cons_of_mem y hx))]

theorem filter_key_nil {α κ : Type} [DecidableEq κ] (key : α → κ) (k : κ)
    (l : List α) (h : ∀ c ∈ l, key c ≠ k) :
    l.filter (fun x => key x == k) = [] := by
  rw [List.filter_eq_nil_iff]
  intro a ha
  simp [h a ha]

theorem filter_key_singleton {α κ : Type} [DecidableEq κ] (key : α → κ) :
    ∀ (l : List α), l.Pairwise (fun a b => key a ≠ key b) →
      ∀ c ∈ l, l.filter (fun x => key x == key c) = [c] := by
  intro l
  induction l with
  | nil => intro _ c hc; cases hc
  | cons y ys ih =>
    intro hl c hc
    rcases List.pairwise_cons.mp hl with ⟨hy, hys⟩
    rcases List.mem_cons.mp hc with heq | hc'
    · subst heq
      rw [List.filter_cons]
      simp only [beq_self_eq_true, if_true]
      have hnil : ys.filter (fun x => key x == key c) = [] := by
        apply filter_key_nil
        intro a ha hak
        exact (hy a ha) hak.symm
      rw [hnil]
    · have hne : key y ≠ key c := hy c hc'
      rw [List.filter_cons]
      simp only [beq_iff_eq, hne, if_false]
      exact ih hys c hc'

theorem map_update_id {α κ : Type} [DecidableEq κ] (key : α → κ) (c : α) :
    ∀ (l : List α), l.Pairwise (fun a b => key a ≠ key b) → c ∈ l →
      l.map (fun x => if key x == key c then c else x) = l := by
  intro l
  induction l with
  | nil => intro _ hc; cases hc
  | cons y ys ih =>
    intro hl hc
    rcases List.pairwise_cons.mp hl with ⟨hy, hys⟩
    rcases List.mem_cons.mp hc with heq | hc'
    · subst heq
      simp only [List.map_cons, beq_self_eq_true, if_true, List.cons.injEq, true_and]
      apply map_id_of_mem
      intro x hx
      have hne : key x ≠ key c := fun h => (hy x hx) h.symm
      simp [hne]
    · have hne : ¬ (key y == key c) = true := by
        simp only [beq_iff_eq]
        exact hy c hc'
      simp only [List.map_cons]
      rw [if_neg hne, ih hys hc']

theorem filter_map_update {α κ : Type} [DecidableEq κ] (key : α → κ) (c' : α) :
    ∀ (l : List α), l.Pairwise (fun a b => key a ≠ key b) →
      ∀ c ∈ l, key c' = key c →
        (l.map (fun x => if key x == key c' then c' else x)).filter
            (fun x => key x == key c') = [c'] := by
  intro l
  induction l with
  | nil => intro _ c hc; cases hc
  | cons y ys ih =>
    intro hl c hc hkey
    rcases List.pairwise_cons.mp hl with ⟨hy, hys⟩
    rcases List.mem_cons.mp hc with heq | hc'
    · subst heq
      simp only [List.map_cons]
      rw [if_pos (by simp [hkey])]
      rw [List.filter_cons, if_pos (by simp)]
      have hmap : ys.map (fun x => if key x == key c' then c' else x) = ys := by
        apply map_id_of_mem
        intro x hx
        have hne : ¬ (key x == key c') = true := by
          simp only [beq_iff_eq]
          rw [hkey]
          exact fun h => (hy x hx) h.symm
        rw [if_neg hne]
      rw [hmap]
      have hnil : ys.filter (fun x => key x == key c') = [] := by
        apply filter_key_nil
        intro a ha
        rw [hkey]
        exact fun h => (hy a ha) h.symm
      rw [hnil]
    · have hne : ¬ (key y == key c') = true := by
        simp only [beq_iff_eq]
        rw [hkey]
        exact hy c hc'
      simp only [List.map_cons]
      rw [if_neg hne, List.filter_cons, if_neg hne]
      exact ih hys c hc' hkey

/-! ### Comparator facts and query helper lemmas -/

theorem newerFirst_trans :
    ∀ a b c, newerFirst a b = true → newerFirst b c = true → newerFirst a c = true := by
  intro a b c hab hbc
  simp only [newerFirst, decide_eq_true_eq] at hab hbc ⊢
  exact le_trans hbc hab

theorem newerFirst_total : ∀ a b, newerFirst a b = true ∨ newerFirst b a = true := by
  intro a b
  simp only [newerFirst, decide_eq_true_eq]
  exact (Nat.le_total b.created_at a.created_at)

theorem charListLe_iff_not_lt :
    ∀ (l m : List Char), charListLe l m = true ↔ ¬ m < l := by
  intro l
  induction l with
  | nil =>
    intro m
    refine iff_of_true rfl ?_
    intro h
    cases h
  | cons c cs ih =>
    intro m
    cases m with
    | nil =>
      refine iff_of_false (by simp [charListLe]) ?_
      intro h
      exact h (List.Lex.nil)
    | cons d ds =>
      rcases lt_trichotomy c d with hcd | heq | hdc
      · refine iff_of_true ?_ ?_
        · simp [charListLe, hcd]
        · intro h
          cases h with
          | cons h' => exact lt_irrefl _ hcd
          | rel h' => exact lt_asymm hcd h'
      · subst heq
        have h1 : ¬ c < c := lt_irrefl c
        constructor
        · intro hle h
          cases h with
          | cons h' => exact ((ih ds).mp (by simpa [charListLe, h1] using hle)) h'
          | rel h' => exact h1 h'
        · intro h
          simp only [charListLe, h1, if_false]
          exact (ih ds).mpr (fun h' => h (List.Lex.cons h'))
      · refine iff_of_false ?_ ?_
        · simp [charListLe, hdc, asymm hdc]
        · intro h
          exact h (List.Lex.rel hdc)

theorem strLe_iff (s t : String) : strLe s t = true ↔ s ≤ t := by
  rw [String.le_iff_toList_le, ← not_lt]
  exact charListLe_iff_not_lt s.data t.data

theorem codeAsc_trans :
    ∀ a b c, codeAsc a b = true → codeAsc b c = true → codeAsc a c = true := by
  intro a b c hab hbc
  rw [codeAsc, strLe_iff] at hab hbc ⊢
  exact le_trans hab hbc

theorem codeAsc_total : ∀ a b, codeAsc a b = true ∨ codeAsc b a = true := by
  intro a b
  rw [codeAsc, strLe_iff, codeAsc, strLe_iff]
  exact le_total a.asset_code b.asset_code

theorem ensure_cycle_exists_eq : ensure_cycle_exists = get_cycle_or_raise := rfl

theorem get_cycle_by_id_eq : get_cycle_by_id = get_cycle_or_raise := rfl

theorem select_cycle_by_id_singleton (db : DB) (cycle : VerificationCycle)
    (hwf : db.cycles.Pairwise (fun a b => a.id ≠ b.id)) (hc : cycle ∈ db.cycles) :
    select_cycle_by_id db cycle.id = [cycle] :=
  filter_key_singleton VerificationCycle.id db.cycles hwf cycle hc

theorem select_cycle_by_id_nil (db : DB) (cycle_id : Nat)
    (h : ∀ c ∈ db.cycles, c.id ≠ cycle_id) :
    select_cycle_by_id db cycle_id = [] :=
  filter_key_nil VerificationCycle.id cycle_id db.cycles h

theorem get_cycle_or_raise_ok (db : DB) (cycle : VerificationCycle)
    (hwf : db.cycles.Pairwise (fun a b => a.id ≠ b.id)) (hc : cycle ∈ db.cycles) :
    get_cycle_or_raise db cycle.id = .ok cycle := by
  unfold get_cycle_or_raise
  rw [select_cycle_by_id_singleton db cycle hwf hc]
  rfl

theorem get_cycle_or_raise_absent (db : DB) (cycle_id : Nat)
    (h : ∀ c ∈ db.cycles, c.id ≠ cycle_id) :
    get_cycle_or_raise db cycle_id = .error .cycleNotFound := by
  unfold get_cycle_or_raise
  rw [select_cycle_by_id_nil db cycle_id h]
  rfl

theorem check_cycle_not_locked_locked (db : DB) (cycle : VerificationCycle)
    (hwf : db.cycles.Pairwise (fun a b => a.id ≠ b.id)) (hc : cycle ∈ db.cycles)
    (hst : cycle.status = "LOCKED") :
    check_cycle_not_locked db cycle.id = .error .cycleLocked := by
  unfold check_cycle_not_locked
  rw [get_cycle_or_raise_ok db cycle hwf hc]
  simp [hst]

theorem check_cycle_not_locked_ok (db : DB) (cycle : VerificationCycle)
    (hwf : db.cycles.Pairwise (fun a b => a.id ≠ b.id)) (hc : cycle ∈ db.cycles)
    (hst : cycle.status ≠ "LOCKED") :
    check_cycle_not_locked db cycle.id = .ok cycle := by
  unfold check_cycle_not_locked
  rw [get_cycle_or_raise_ok db cycle hwf hc]
  simp [hst]

theorem check_cycle_not_locked_absent (db : DB) (cycle_id : Nat)
    (h : ∀ c ∈ db.cycles, c.id ≠ cycle_id) :
    check_cycle_not_locked db cycle_id = .error .cycleNotFound := by
  unfold check_cycle_not_locked
  rw [get_cycle_or_raise_absent db cycle_id h]

theorem select_asset_by_id_singleton (db : DB) (asset : Asset)
    (hwf : db.assets.Pairwise (fun a b => a.id ≠ b.id)) (ha : asset ∈ db.assets) :
    select_asset_by_id db asset.id = [asset] :=
  filter_key_singleton Asset.id db.assets hwf asset ha

theorem get_asset_or_raise_ok (db : DB) (asset : Asset)
    (hwf : db.assets.Pairwise (fun a b => a.id ≠ b.id)) (ha : asset ∈ db.assets) :
    get_asset_or_raise db asset.id = .ok asset := by
  unfold get_asset_or_raise
  rw [select_asset_by_id_singleton db asset hwf ha]
  rfl

theorem select_asset_by_code_singleton (db : DB) (asset : Asset)
    (hwf : db.assets.Pairwise (fun a b => a.asset_code ≠ b.asset_code))
    (ha : asset ∈ db.assets) :
    select_asset_by_code db asset.asset_code = [asset] :=
  filter_key_singleton Asset.asset_code db.assets hwf asset ha

theorem select_asset_by_code_nil (db : DB) (code : String)
    (h : ∀ a ∈ db.assets, a.asset_code ≠ code) :
    select_asset_by_code db code = [] :=
  filter_key_nil Asset.asset_code code db.assets h

theorem select_verification_by_id_singleton (db : DB) (v : AssetVerification)
    (hwf : db.verifications.Pairwise (fun a b => a.id ≠ b.id))
    (hv : v ∈ db.verifications) :
    select_verification_by_id db v.id = [v] :=
  filter_key_singleton AssetVerification.id db.verifications hwf v hv

theorem get_verification_or_raise_ok (db : DB) (v : AssetVerification)
    (hwf : db.verifications.Pairwise (fun a b => a.id ≠ b.id))
    (hv : v ∈ db.verifications) :
    get_verification_or_raise db v.id = .ok v := by
  unfold get_verification_or_raise
  rw [select_verification_by_id_singleton db v hwf hv]
  rfl

theorem get_verification_or_raise_absent (db : DB) (verification_id : Nat)
    (h : ∀ v ∈ db.verifications, v.id ≠ verification_id) :
    get_verification_or_raise db verification_id = .error .verificationNotFound := by
  unfold get_verification_or_raise
  rw [show select_verification_by_id db verification_id = [] from
    filter_key_nil AssetVerification.id verification_id db.verifications h]
  rfl

theorem mem_pairRows (db : DB) (asset_id cycle_id : Nat) (v : AssetVerification) :
    v ∈ pairRows db asset_id cycle_id ↔
      v ∈ db.verifications ∧ v.asset_id = asset_id ∧ v.cycle_id = cycle_id := by
  simp [pairRows, List.mem_filter, and_assoc]

theorem mem_history (db : DB) (asset_id cycle_id : Nat) (v : AssetVerification) :
    v ∈ select_verifications_for_asset_cycle db asset_id cycle_id ↔
      v ∈ pairRows db asset_id cycle_id :=
  mem_sortBy newerFirst _ v

theorem history_sorted (db : DB) (asset_id cycle_id : Nat) :
    (select_verifications_for_asset_cycle db asset_id cycle_id).Pairwise
      (fun a b => b.created_at ≤ a.created_at) := by
  have h := pairwise_sortBy newerFirst newerFirst_trans newerFirst_total
    (pairRows db asset_id cycle_id)
  refine h.imp ?_
  intro a b hab
  simpa [newerFirst] using hab

theorem head_newest {h0 : AssetVerification} {rest : List AssetVerification}
    (hs : (h0 :: rest).Pairwise (fun a b => b.created_at ≤ a.created_at)) :
    ∀ v ∈ h0 :: rest, v.created_at ≤ h0.created_at := by
  intro v hv
  rcases List.mem_cons.mp hv with rfl | hv'
  · exact le_refl _
  · exact (List.pairwise_cons.mp hs).1 v hv'

theorem eq_of_key_eq {α κ : Type} [DecidableEq κ] (key : α → κ) :
    ∀ (l : List α), l.Pairwise (fun a b => key a ≠ key b) →
      ∀ a ∈ l, ∀ b ∈ l, key a = key b → a = b := by
  intro l
  induction l with
  | nil => intro _ a ha; cases ha
  | cons y ys ih =>
    intro hl a ha b hb hab
    rcases List.pairwise_cons.mp hl with ⟨hy, hys⟩
    rcases List.mem_cons.mp ha with ha0 | ha'
    · rcases List.mem_cons.mp hb with hb0 | hb'
      · rw [ha0, hb0]
      · exfalso
        apply hy b hb'
        rw [← ha0]
        exact hab
    · rcases List.mem_cons.mp hb with hb0 | hb'
      · exfalso
        apply hy a ha'
        rw [← hb0]
        exact hab.symm
      · exact ih hys a ha' b hb' hab

theorem set_cycle_keeps_ids (c' x : VerificationCycle) :
    (if x.id == c'.id then c' else x).id = x.id := by
  by_cases h : x.id = c'.id
  · simp [h]
  · simp [h]

theorem set_cycle_pairwise (db : DB) (c' : VerificationCycle)
    (hwf : db.cycles.Pairwise (fun a b => a.id ≠ b.id)) :
    (set_cycle db c').cycles.Pairwise (fun a b => a.id ≠ b.id) := by
  unfold set_cycle
  simp only [List.pairwise_map]
  refine hwf.imp ?_
  intro a b hab
  rw [set_cycle_keeps_ids c' a, set_cycle_keeps_ids c' b]
  exact hab

theorem select_cycle_after_set (db : DB) (cycle c' : VerificationCycle)
    (hwf : db.cycles.Pairwise (fun a b => a.id ≠ b.id)) (hc : cycle ∈ db.cycles)
    (hid : c'.id = cycle.id) :
    select_cycle_by_id (set_cycle db c') cycle.id = [c'] := by
  unfold select_cycle_by_id set_cycle
  rw [← hid]
  exact filter_map_update VerificationCycle.id c' db.cycles hwf cycle hc hid

theorem get_cycle_or_raise_after_set (db : DB) (cycle c' : VerificationCycle)
    (hwf : db.cycles.Pairwise (fun a b => a.id ≠ b.id)) (hc : cycle ∈ db.cycles)
    (hid : c'.id = cycle.id) :
    get_cycle_or_raise (set_cycle db c') cycle.id = .ok c' := by
  unfold get_cycle_or_raise
  rw [select_cycle_after_set db cycle c' hwf hc hid]
  rfl

theorem set_set_cancel (db : DB) (cycle c1 c2 : VerificationCycle)
    (hwf : db.cycles.Pairwise (fun a b => a.id ≠ b.id)) (hc : cycle ∈ db.cycles)
    (h1 : c1.id = cycle.id) (h2 : c2 = cycle) :
    set_cycle (set_cycle db c1) c2 = db := by
  subst h2
  unfold set_cycle
  simp only [List.map_map]
  have hpt : ∀ x ∈ db.cycles,
      ((fun x => if x.id == c2.id then c2 else x) ∘
        (fun x => if x.id == c1.id then c1 else x)) x = x := by
    intro x hx
    by_cases hxid : x.id = c2.id
    · have hx_eq : x = c2 := eq_of_key_eq VerificationCycle.id db.cycles hwf x hx c2 hc hxid
      simp [hx_eq, h1]
    · simp only [Function.comp_apply]
      rw [if_neg (show ¬ (x.id == c1.id) = true by
        simp only [beq_iff_eq, h1]; exact hxid)]
      rw [if_neg (show ¬ (x.id == c2.id) = true by
        simp only [beq_iff_eq]; exact hxid)]
  rw [map_id_of_mem _ db.cycles hpt]

/-! ### Claim theorems -/

/-- C3: for every cycle whose status is LOCKED and every asset (existing or
not — the lock check runs first, before asset existence and duplicate
detection), `create_verification` fails with `CycleLocked`; since the error
aborts the transaction, no verification row is inserted.  If the cycle does
not exist it fails with `CycleNotFound` instead. -/
theorem createVerification_locked_gate :
    ∀ (db : DB) (now asset_id : Nat) (performed_by : Option String)
      (source status : String) (condition : Option String)
      (location_lat location_lng : Option Int) (photos : Option (List String))
      (notes : Option String) (allow_duplicate : Bool),
      db.wf →
      (∀ cycle ∈ db.cycles, cycle.status = "LOCKED" →
        create_verification db now asset_id cycle.id performed_by source status
          condition location_lat location_lng photos notes allow_duplicate =
          .error .cycleLocked) ∧
      (∀ cycle_id : Nat, (∀ c ∈ db.cycles, c.id ≠ cycle_id) →
        create_verification db now asset_id cycle_id performed_by source status
          condition location_lat location_lng photos notes allow_duplicate =
          .error .cycleNotFound) := by
  intro db now aid pb src st cond lat lng ph nts ad hwf
  constructor
  · intro cycle hc hst
    unfold create_verification
    rw [check_cycle_not_locked_locked db cycle hwf.1 hc hst]
  · intro cid h
    unfold create_verification
    rw [check_cycle_not_locked_absent db cid h]

/-- Concrete store for the C3 witness: one LOCKED cycle, no assets at all. -/
def dbC3 : DB :=
  { assets := [],
    cycles := [{ id := 1, tag := "Q1", status := "LOCKED", created_at := 0,
                 locked_at := some 5 }],
    verifications := [],
    next_asset_id := 1, next_cycle_id := 2, next_verification_id := 1 }

/-- Witness for C3: in `dbC3` the locked cycle rejects a verification even for
a non-existent asset, and an absent cycle id gives `CycleNotFound`. -/
theorem createVerification_locked_gate_witness :
    create_verification dbC3 7 42 1 none "SELF" "VERIFIED" none none none none
      none false = .error .cycleLocked ∧
    create_verification dbC3 7 42 99 none "SELF" "VERIFIED" none none none none
      none false = .error .cycleNotFound := by
  have h := createVerification_locked_gate dbC3 7 42 none "SELF" "VERIFIED"
    none none none none none false (by decide)
  refine ⟨?_, h.2 99 (by decide)⟩
  exact h.1 { id := 1, tag := "Q1", status := "LOCKED", created_at := 0,
              locked_at := some 5 } (by decide) (by decide)

/-- C9: for a cycle in ACTIVE status, lock then unlock is an identity on the
cycle's observable state: lock sets status LOCKED and `locked_at = now`,
unlock restores status ACTIVE and clears `locked_at`, after which
`check_cycle_not_locked` (the spec's `assertWritable`) succeeds again — and
when the ACTIVE cycle's `locked_at` was null (as in every reachable ACTIVE
state) the whole store returns to exactly its previous value.  Lock on a
non-ACTIVE cycle and unlock on a non-LOCKED cycle fail with the source's
`CycleStatusError` (the spec's `InvalidTransition`). -/
theorem lock_unlock_roundtrip :
    ∀ (db : DB) (now : Nat) (cycle : VerificationCycle),
      db.wf → cycle ∈ db.cycles →
      (cycle.status = "ACTIVE" →
        ∃ c1 db1 c2 db2,
          lock_cycle db now cycle.id = .ok (c1, db1) ∧
          c1 = { cycle with status := "LOCKED", locked_at := some now } ∧
          unlock_cycle db1 cycle.id = .ok (c2, db2) ∧
          c2 = { cycle with status := "ACTIVE", locked_at := none } ∧
          check_cycle_not_locked db2 cycle.id = .ok c2 ∧
          (cycle.locked_at = none → db2 = db)) ∧
      (cycle.status ≠ "ACTIVE" →
        lock_cycle db now cycle.id = .error .cycleStatusError) ∧
      (cycle.status ≠ "LOCKED" →
        unlock_cycle db cycle.id = .error .cycleStatusError) := by
  intro db now cycle hwf hc
  have hget : get_cycle_by_id db cycle.id = .ok cycle := by
    rw [get_cycle_by_id_eq]
    exact get_cycle_or_raise_ok db cycle hwf.1 hc
  refine ⟨?_, ?_, ?_⟩
  · intro hst
    set c1 : VerificationCycle :=
      { cycle with status := "LOCKED", locked_at := some now } with hc1
    set c2 : VerificationCycle :=
      { cycle with status := "ACTIVE", locked_at := none } with hc2
    have hlock : lock_cycle db now cycle.id = .ok (c1, set_cycle db c1) := by
      unfold lock_cycle
      rw [hget]
      dsimp only
      rw [if_neg (by simp [hst])]
    have hmem1 : c1 ∈ (set_cycle db c1).cycles := by
      unfold set_cycle
      refine List.mem_map.mpr ⟨cycle, hc, ?_⟩
      rw [hc1]
      simp
    have hget1 : get_cycle_by_id (set_cycle db c1) cycle.id = .ok c1 := by
      rw [get_cycle_by_id_eq]
      exact get_cycle_or_raise_after_set db cycle c1 hwf.1 hc rfl
    have hunlock : unlock_cycle (set_cycle db c1) cycle.id =
        .ok (c2, set_cycle (set_cycle db c1) c2) := by
      unfold unlock_cycle
      rw [hget1]
      dsimp only
      rw [if_neg (by simp [hc1])]
    have hget2 : get_cycle_or_raise (set_cycle (set_cycle db c1) c2) cycle.id =
        .ok c2 :=
      get_cycle_or_raise_after_set (set_cycle db c1) c1 c2
        (set_cycle_pairwise db c1 hwf.1) hmem1 rfl
    have hcheck : check_cycle_not_locked (set_cycle (set_cycle db c1) c2)
        cycle.id = .ok c2 := by
      unfold check_cycle_not_locked
      rw [hget2]
      dsimp only
      rw [if_neg (by simp [hc2])]
    refine ⟨c1, set_cycle db c1, c2, set_cycle (set_cycle db c1) c2,
      hlock, hc1, hunlock, hc2, hcheck, ?_⟩
    intro hla
    apply set_set_cancel db cycle c1 c2 hwf.1 hc rfl
    rw [hc2, ← hst, ← hla]
  · intro hst
    unfold lock_cycle
    rw [hget]
    dsimp only
    rw [if_pos hst]
  · intro hst
    unfold unlock_cycle
    rw [hget]
    dsimp only
    rw [if_pos hst]

/-- Concrete inputs for the C9 witness: one ACTIVE cycle with null
`locked_at`. -/
def cyc9 : VerificationCycle :=
  { id := 1, tag := "Q2-2025", status := "ACTIVE", created_at := 0,
    locked_at := none }

/-- Concrete store for the C9 witness. -/
def dbC9 : DB :=
  { assets := [], cycles := [cyc9], verifications := [],
    next_asset_id := 1, next_cycle_id := 2, next_verification_id := 1 }

/-- Witness for C9: the round trip at a concrete ACTIVE cycle, and the
`InvalidTransition` failure of unlock on that same (non-LOCKED) cycle. -/
theorem lock_unlock_roundtrip_witness :
    (∃ c1 db1 c2 db2,
      lock_cycle dbC9 11 cyc9.id = .ok (c1, db1) ∧
      c1 = { cyc9 with status := "LOCKED", locked_at := some 11 } ∧
      unlock_cycle db1 cyc9.id = .ok (c2, db2) ∧
      c2 = { cyc9 with status := "ACTIVE", locked_at := none } ∧
      check_cycle_not_locked db2 cyc9.id = .ok c2 ∧
      (cyc9.locked_at = none → db2 = dbC9)) ∧
    unlock_cycle dbC9 cyc9.id = .error .cycleStatusError := by
  have h := lock_unlock_roundtrip dbC9 11 cyc9 (by decide) (by decide)
  exact ⟨h.1 (by decide), h.2.2 (by decide)⟩

/-- C7: no core operation ever updates or deletes an existing verification
row.  For every store, every operation (verification creation, override
creation, asset onboarding, and the whole cycle lifecycle) that succeeds
leaves the verification table equal to the old table with zero or more rows
appended, so every row present before is still present — field for field —
after.  (On a failed operation the transaction aborts and the store is
unchanged by construction.) -/
theorem verifications_append_only :
    ∀ (op : Op) (db db' : DB), op.applyDB db = .ok db' →
      (∃ new, db'.verifications = db.verifications ++ new) ∧
      (∀ v ∈ db.verifications, v ∈ db'.verifications) := by
  have hmem : ∀ (db db' : DB), (∃ new, db'.verifications = db.verifications ++ new) →
      ∀ v ∈ db.verifications, v ∈ db'.verifications := by
    rintro db db' ⟨new, hnew⟩ v hv
    rw [hnew]
    exact List.mem_append_left new hv
  intro op db db' hok
  refine (fun h => ⟨h, hmem db db' h⟩) ?_
  cases op with
  | opCreateVerification now aid cid pb src st cond lat lng ph nts ad =>
    simp only [Op.applyDB] at hok
    unfold create_verification at hok
    split at hok
    · simp [Except.map] at hok
    · split at hok
      · simp [Except.map] at hok
      · split at hok
        · simp [Except.map] at hok
        · split at hok
          · simp [Except.map] at hok
            exact ⟨[], by rw [← hok]; simp⟩
          · simp [Except.map] at hok
            exact ⟨_, by rw [← hok]⟩
  | opCreateOverride now vid pb src st cond lat lng ph nts reason =>
    simp only [Op.applyDB] at hok
    unfold create_override at hok
    split at hok
    · simp [Except.map] at hok
    · split at hok
      · simp [Except.map] at hok
      · simp [Except.map] at hok
        exact ⟨_, by rw [← hok]⟩
  | opCreateAssetAndInitialVerification now code nm cid oh pb src st ph lat lng nts =>
    simp only [Op.applyDB] at hok
    unfold create_asset_and_initial_verification at hok
    split at hok
    · simp [Except.map] at hok
    · split at hok
      · simp [Except.map] at hok
      · simp [Except.map] at hok
      · split at hok
        · simp [Except.map] at hok
          exact ⟨_, by rw [← hok]⟩
        · simp [Except.map] at hok
  | opCreateCycle now tag status =>
    simp only [Op.applyDB] at hok
    unfold create_cycle at hok
    split at hok
    · simp [Except.map] at hok
    · split at hok
      · simp [Except.map] at hok
      · simp [Except.map] at hok
      · simp [Except.map] at hok
        exact ⟨[], by rw [← hok]; simp⟩
  | opActivateCycle cid =>
    simp only [Op.applyDB] at hok
    unfold activate_cycle at hok
    split at hok
    · simp [Except.map] at hok
    · split at hok
      · simp [Except.map] at hok
      · simp [Except.map] at hok
        exact ⟨[], by rw [← hok]; simp [set_cycle]⟩
  | opLockCycle now cid =>
    simp only [Op.applyDB] at hok
    unfold lock_cycle at hok
    split at hok
    · simp [Except.map] at hok
    · split at hok
      · simp [Except.map] at hok
      · simp [Except.map] at hok
        exact ⟨[], by rw [← hok]; simp [set_cycle]⟩
  | opUnlockCycle cid =>
    simp only [Op.applyDB] at hok
    unfold unlock_cycle at hok
    split at hok
    · simp [Except.map] at hok
    · split at hok
      · simp [Except.map] at hok
      · simp [Except.map] at hok
        exact ⟨[], by rw [← hok]; simp [set_cycle]⟩

/-- C5: `create_asset_and_initial_verification` fails with `CycleNotFound`
exactly when the cycle is absent (the cycle's lock status is never examined,
so the operation also succeeds on a LOCKED cycle), fails with
`AssetAlreadyExists` exactly when the asset_code is already taken, and
otherwise commits the new active `Asset` and its first `AssetVerification`
in one atomic state transition — the success state carries both rows, so an
asset row without its verification row is never observably persisted. -/
theorem onboarding_behavior :
    ∀ (db : DB) (now : Nat) (code nm : String) (cycle_id : Nat)
      (oh pb : Option String) (src st : String) (ph : Option (List String))
      (lat lng : Option Int) (nts : Option String),
      db.wf →
      ((∀ c ∈ db.cycles, c.id ≠ cycle_id) →
        create_asset_and_initial_verification db now code nm cycle_id oh pb src
          st ph lat lng nts = .error .cycleNotFound) ∧
      (∀ cycle ∈ db.cycles, cycle.id = cycle_id →
        (∃ a ∈ db.assets, a.asset_code = code) →
        create_asset_and_initial_verification db now code nm cycle_id oh pb src
          st ph lat lng nts = .error .assetAlreadyExists) ∧
      (∀ cycle ∈ db.cycles, cycle.id = cycle_id →
        (∀ a ∈ db.assets, a.asset_code ≠ code) →
        ∃ a v db2,
          create_asset_and_initial_verification db now code nm cycle_id oh pb
            src st ph lat lng nts = .ok ((a, v), db2) ∧
          a.asset_code = code ∧ a.name = nm ∧ a.is_active = true ∧
          a.owner_id = none ∧
          v.asset_id = a.id ∧ v.cycle_id = cycle_id ∧ v.source = src ∧
          v.status = st ∧ v.verified_at = none ∧
          db2.assets = db.assets ++ [a] ∧
          db2.verifications = db.verifications ++ [v]) := by
  intro db now code nm cycle_id oh pb src st ph lat lng nts hwf
  refine ⟨?_, ?_, ?_⟩
  · intro h
    unfold create_asset_and_initial_verification
    rw [ensure_cycle_exists_eq, get_cycle_or_raise_absent db cycle_id h]
  · rintro cycle hc hcid ⟨a, ha, hacode⟩
    subst hcid
    subst hacode
    unfold create_asset_and_initial_verification
    rw [ensure_cycle_exists_eq, get_cycle_or_raise_ok db cycle hwf.1 hc]
    dsimp only
    rw [select_asset_by_code_singleton db a hwf.2.2.1 ha]
    rfl
  · intro cycle hc hcid h
    subst hcid
    have hfil : db.assets.filter (fun a => a.asset_code == code) = [] :=
      filter_key_nil Asset.asset_code code db.assets h
    refine ⟨{ id := db.next_asset_id, asset_code := code, name := nm,
              owner_id := none, is_active := true },
            { id := db.next_verification_id, asset_id := db.next_asset_id,
              cycle_id := cycle.id, performed_by := pb, source := src,
              status := st, condition := none, location_lat := lat,
              location_lng := lng, photos := photos_text ph, notes := nts,
              override_of_verification_id := none, override_reason := none,
              created_at := now, verified_at := none },
            { assets := db.assets ++
                [{ id := db.next_asset_id, asset_code := code, name := nm,
                   owner_id := none, is_active := true }],
              cycles := db.cycles,
              verifications := db.verifications ++
                [{ id := db.next_verification_id, asset_id := db.next_asset_id,
                   cycle_id := cycle.id, performed_by := pb, source := src,
                   status := st, condition := none, location_lat := lat,
                   location_lng := lng, photos := photos_text ph, notes := nts,
                   override_of_verification_id := none, override_reason := none,
                   created_at := now, verified_at := none }],
              next_asset_id := db.next_asset_id + 1,
              next_cycle_id := db.next_cycle_id,
              next_verification_id := db.next_verification_id + 1 },
            ?_, rfl, rfl, rfl, rfl, rfl, rfl, rfl, rfl, rfl, rfl, rfl⟩
    unfold create_asset_and_initial_verification
    rw [ensure_cycle_exists_eq, get_cycle_or_raise_ok db cycle hwf.1 hc]
    dsimp only
    rw [show select_asset_by_code db code = [] from hfil]
    dsimp only [scalarOneOrNone]
    rw [if_pos (by rw [hfil]; rfl)]

/-- LOCKED cycle for the C5 witness. -/
def cyc5 : VerificationCycle :=
  { id := 1, tag := "Q1", status := "LOCKED", created_at := 0,
    locked_at := some 2 }

/-- Pre-existing asset for the C5 witness. -/
def a5 : Asset :=
  { id := 1, asset_code := "A1", name := "Printer", owner_id := none,
    is_active := true }

/-- Concrete store for the C5 witness: a LOCKED cycle and one existing
asset. -/
def dbC5 : DB :=
  { assets := [a5], cycles := [cyc5], verifications := [],
    next_asset_id := 2, next_cycle_id := 2, next_verification_id := 1 }

/-- Witness for C5: taken asset_code fails, absent cycle fails, and a fresh
code succeeds atomically even though the cycle is LOCKED. -/
theorem onboarding_behavior_witness :
    create_asset_and_initial_verification dbC5 9 "A1" "Dup" 1 none none
      "AUDITOR" "NEW_ASSET" none none none none = .error .assetAlreadyExists ∧
    create_asset_and_initial_verification dbC5 9 "B2" "Scanner" 99 none none
      "AUDITOR" "NEW_ASSET" none none none none = .error .cycleNotFound ∧
    (∃ a v db2,
      create_asset_and_initial_verification dbC5 9 "B2" "Scanner" 1 none none
        "AUDITOR" "NEW_ASSET" none none none none = .ok ((a, v), db2) ∧
      a.asset_code = "B2" ∧ a.name = "Scanner" ∧ a.is_active = true ∧
      a.owner_id = none ∧
      v.asset_id = a.id ∧ v.cycle_id = 1 ∧ v.source = "AUDITOR" ∧
      v.status = "NEW_ASSET" ∧ v.verified_at = none ∧
      db2.assets = dbC5.assets ++ [a] ∧
      db2.verifications = dbC5.verifications ++ [v]) := by
  have h1 := onboarding_behavior dbC5 9 "A1" "Dup" 1 none none "AUDITOR"
    "NEW_ASSET" none none none none (by decide)
  have h2 := onboarding_behavior dbC5 9 "B2" "Scanner" 99 none none "AUDITOR"
    "NEW_ASSET" none none none none (by decide)
  have h3 := onboarding_behavior dbC5 9 "B2" "Scanner" 1 none none "AUDITOR"
    "NEW_ASSET" none none none none (by decide)
  refine ⟨?_, h2.1 (by decide), ?_⟩
  · exact h1.2.1 cyc5 (by decide) (by decide) ⟨a5, by decide, by decide⟩
  · exact h3.2.2 cyc5 (by decide) (by decide) (by decide)

/-- C8: for every existing verification whose cycle exists and is not LOCKED,
`create_override` (with its default `source="OVERRIDDEN"`) inserts exactly
one new row: `source="OVERRIDDEN"`, `asset_id`/`cycle_id` copied from the
original, `override_of_verification_id` pointing at the original, and
`verified_at` set to the current time.  It fails with `VerificationNotFound`
when the original is absent and with `CycleLocked` when the original's cycle
is LOCKED. -/
theorem createOverride_behavior :
    ∀ (db : DB) (now vid : Nat) (pb : Option String) (st : String)
      (cond : Option String) (lat lng : Option Int) (ph : Option (List String))
      (nts : Option String) (reason : String),
      db.wf →
      ((∀ v ∈ db.verifications, v.id ≠ vid) →
        create_override db now vid pb "OVERRIDDEN" st cond lat lng ph nts
          reason = .error .verificationNotFound) ∧
      (∀ original ∈ db.verifications, original.id = vid →
        ∀ cycle ∈ db.cycles, cycle.id = original.cycle_id →
        (cycle.status = "LOCKED" →
          create_override db now vid pb "OVERRIDDEN" st cond lat lng ph nts
            reason = .error .cycleLocked) ∧
        (cycle.status ≠ "LOCKED" →
          ∃ ov db2,
            create_override db now vid pb "OVERRIDDEN" st cond lat lng ph nts
              reason = .ok (ov, db2) ∧
            ov.source = "OVERRIDDEN" ∧
            ov.asset_id = original.asset_id ∧
            ov.cycle_id = original.cycle_id ∧
            ov.override_of_verification_id = some original.id ∧
            ov.override_reason = some reason ∧
            ov.verified_at = some now ∧
            db2.verifications = db.verifications ++ [ov] ∧
            db2.assets = db.assets ∧ db2.cycles = db.cycles)) := by
  intro db now vid pb st cond lat lng ph nts reason hwf
  refine ⟨?_, ?_⟩
  · intro h
    unfold create_override
    rw [get_verification_or_raise_absent db vid h]
  · intro original hov hid cycle hcyc hcid
    subst hid
    refine ⟨?_, ?_⟩
    · intro hst
      unfold create_override
      rw [get_verification_or_raise_ok db original hwf.2.2.2 hov]
      dsimp only
      rw [← hcid, check_cycle_not_locked_locked db cycle hwf.1 hcyc hst]
    · intro hst
      refine ⟨{ id := db.next_verification_id, asset_id := original.asset_id,
                cycle_id := original.cycle_id, performed_by := pb,
                source := "OVERRIDDEN", status := st, condition := cond,
                location_lat := lat, location_lng := lng,
                photos := photos_text ph, notes := nts,
                override_of_verification_id := some original.id,
                override_reason := some reason, created_at := now,
                verified_at := some now },
              { db with
                verifications := db.verifications ++
                  [{ id := db.next_verification_id,
                     asset_id := original.asset_id,
                     cycle_id := original.cycle_id, performed_by := pb,
                     source := "OVERRIDDEN", status := st, condition := cond,
                     location_lat := lat, location_lng := lng,
                     photos := photos_text ph, notes := nts,
                     override_of_verification_id := some original.id,
                     override_reason := some reason, created_at := now,
                     verified_at := some now }],
                next_verification_id := db.next_verification_id + 1 },
              ?_, rfl, rfl, rfl, rfl, rfl, rfl, rfl, rfl, rfl⟩
      unfold create_override
      rw [get_verification_or_raise_ok db original hwf.2.2.2 hov]
      dsimp only
      rw [← hcid, check_cycle_not_locked_ok db cycle hwf.1 hcyc hst]

/-- ACTIVE cycle for the C8 witness. -/
def cyc8a : VerificationCycle :=
  { id := 1, tag := "Q1", status := "ACTIVE", created_at := 0,
    locked_at := none }

/-- LOCKED cycle for the C8 witness. -/
def cyc8b : VerificationCycle :=
  { id := 2, tag := "Q2", status := "LOCKED", created_at := 1,
    locked_at := some 4 }

/-- Verification in the ACTIVE cycle for the C8 witness. -/
def v8a : AssetVerification :=
  { id := 1, asset_id := 1, cycle_id := 1, performed_by := some "amy",
    source := "SELF", status := "DISCREPANCY", condition := some "DAMAGED",
    location_lat := none, location_lng := none, photos := none, notes := none,
    override_of_verification_id := none, override_reason := none,
    created_at := 1, verified_at := some 1 }

/-- Verification in the LOCKED cycle for the C8 witness. -/
def v8b : AssetVerification :=
  { id := 2, asset_id := 1, cycle_id := 2, performed_by := none,
    source := "SELF", status := "VERIFIED", condition := none,
    location_lat := none, location_lng := none, photos := none, notes := none,
    override_of_verification_id := none, override_reason := none,
    created_at := 2, verified_at := some 2 }

/-- Concrete store for the C8 witness. -/
def dbC8 : DB :=
  { assets := [{ id := 1, asset_code := "A1", name := "Printer",
                 owner_id := none, is_active := true }],
    cycles := [cyc8a, cyc8b], verifications := [v8a, v8b],
    next_asset_id := 2, next_cycle_id := 3, next_verification_id := 3 }

/-- Witness for C8: absent original fails, locked cycle fails, and an
override of `v8a` inserts exactly the chained OVERRIDDEN row. -/
theorem createOverride_behavior_witness :
    create_override dbC8 5 99 none "OVERRIDDEN" "VERIFIED" none none none none
      none "fix" = .error .verificationNotFound ∧
    create_override dbC8 5 2 none "OVERRIDDEN" "VERIFIED" none none none none
      none "fix" = .error .cycleLocked ∧
    (∃ ov db2,
      create_override dbC8 5 1 none "OVERRIDDEN" "VERIFIED" none none none
        none none "fix" = .ok (ov, db2) ∧
      ov.source = "OVERRIDDEN" ∧
      ov.asset_id = v8a.asset_id ∧ ov.cycle_id = v8a.cycle_id ∧
      ov.override_of_verification_id = some v8a.id ∧
      ov.override_reason = some "fix" ∧ ov.verified_at = some 5 ∧
      db2.verifications = dbC8.verifications ++ [ov] ∧
      db2.assets = dbC8.assets ∧ db2.cycles = dbC8.cycles) := by
  have h99 := createOverride_behavior dbC8 5 99 none "VERIFIED" none none none
    none none "fix" (by decide)
  have h2 := createOverride_behavior dbC8 5 2 none "VERIFIED" none none none
    none none "fix" (by decide)
  have h1 := createOverride_behavior dbC8 5 1 none "VERIFIED" none none none
    none none "fix" (by decide)
  refine ⟨h99.1 (by decide), ?_, ?_⟩
  · exact (h2.2 v8b (by decide) (by decide) cyc8b (by decide) (by decide)).1
      (by decide)
  · exact (h1.2 v8a (by decide) (by decide) cyc8a (by decide) (by decide)).2
      (by decide)

/-- C10: the initial row persisted by asset onboarding has a null
`verified_at`, while every row created by `create_verification` or
`create_override` carries `verified_at = now`; consequently, across every
operation, a newly appearing row with null `verified_at` can only come from
the onboarding operation. -/
theorem verified_at_provenance :
    (∀ (db : DB) (now : Nat) (code nm : String) (cycle_id : Nat)
       (oh pb : Option String) (src st : String) (ph : Option (List String))
       (lat lng : Option Int) (nts : Option String)
       (a : Asset) (v : AssetVerification) (db2 : DB),
       create_asset_and_initial_verification db now code nm cycle_id oh pb src
         st ph lat lng nts = .ok ((a, v), db2) → v.verified_at = none) ∧
    (∀ (db : DB) (now aid cid : Nat) (pb : Option String) (src st : String)
       (cond : Option String) (lat lng : Option Int)
       (ph : Option (List String)) (nts : Option String) (ad : Bool)
       (r : AssetVerification) (e : Option AssetVerification) (d : Bool)
       (db2 : DB),
       create_verification db now aid cid pb src st cond lat lng ph nts ad =
         .ok ((some r, e, d), db2) → r.verified_at = some now) ∧
    (∀ (db : DB) (now vid : Nat) (pb : Option String) (src st : String)
       (cond : Option String) (lat lng : Option Int)
       (ph : Option (List String)) (nts : Option String) (reason : String)
       (ov : AssetVerification) (db2 : DB),
       create_override db now vid pb src st cond lat lng ph nts reason =
         .ok (ov, db2) → ov.verified_at = some now) ∧
    (∀ (op : Op) (db db' : DB) (v : AssetVerification),
       op.applyDB db = .ok db' → v ∈ db'.verifications →
       v ∉ db.verifications → v.verified_at = none → op.isOnboarding) := by
  have hpick : ∀ (l : List AssetVerification) (row v : AssetVerification),
      v ∈ l ++ [row] → v ∉ l → v = row := by
    intro l row v hv hnv
    rcases List.mem_append.mp hv with h | h
    · exact absurd h hnv
    · simpa using h
  refine ⟨?_, ?_, ?_, ?_⟩
  · intro db now code nm cid oh pb src st ph lat lng nts a v db2 hok
    unfold create_asset_and_initial_verification at hok
    split at hok
    · simp at hok
    · split at hok
      · simp at hok
      · simp at hok
      · split at hok
        · simp only [Except.ok.injEq, Prod.mk.injEq] at hok
          rw [← hok.1.2]
        · simp at hok
  · intro db now aid cid pb src st cond lat lng ph nts ad r e d db2 hok
    unfold create_verification at hok
    split at hok
    · simp at hok
    · split at hok
      · simp at hok
      · split at hok
        · simp at hok
        · split at hok
          · simp at hok
          · simp only [Except.ok.injEq, Prod.mk.injEq] at hok
            have hr := hok.1.1
            injection hr with hr
            rw [← hr]
  · intro db now vid pb src st cond lat lng ph nts reason ov db2 hok
    unfold create_override at hok
    split at hok
    · simp at hok
    · split at hok
      · simp at hok
      · simp only [Except.ok.injEq, Prod.mk.injEq] at hok
        rw [← hok.1]
  · intro op db db' v hok hvin hvout hnull
    cases op with
    | opCreateAssetAndInitialVerification now code nm cid oh pb src st ph lat lng nts =>
      exact trivial
    | opCreateVerification now aid cid pb src st cond lat lng ph nts ad =>
      exfalso
      simp only [Op.applyDB] at hok
      unfold create_verification at hok
      split at hok
      · simp [Except.map] at hok
      · split at hok
        · simp [Except.map] at hok
        · split at hok
          · simp [Except.map] at hok
          · split at hok
            · simp [Except.map] at hok
              rw [← hok] at hvin
              exact hvout hvin
            · simp [Except.map] at hok
              rw [← hok] at hvin
              have hv := hpick db.verifications _ v hvin hvout
              rw [hv] at hnull
              simp at hnull
    | opCreateOverride now vid pb src st cond lat lng ph nts reason =>
      exfalso
      simp only [Op.applyDB] at hok
      unfold create_override at hok
      split at hok
      · simp [Except.map] at hok
      · split at hok
        · simp [Except.map] at hok
        · simp [Except.map] at hok
          rw [← hok] at hvin
          have hv := hpick db.verifications _ v hvin hvout
          rw [hv] at hnull
          simp at hnull
    | opCreateCycle now tag status =>
      exfalso
      simp only [Op.applyDB] at hok
      unfold create_cycle at hok
      split at hok
      · simp [Except.map] at hok
      · split at hok
        · simp [Except.map] at hok
        · simp [Except.map] at hok
        · simp [Except.map] at hok
          rw [← hok] at hvin
          exact hvout hvin
    | opActivateCycle cid =>
      exfalso
      simp only [Op.applyDB] at hok
      unfold activate_cycle at hok
      split at hok
      · simp [Except.map] at hok
      · split at hok
        · simp [Except.map] at hok
        · simp [Except.map] at hok
          rw [← hok] at hvin
          exact hvout hvin
    | opLockCycle now cid =>
      exfalso
      simp only [Op.applyDB] at hok
      unfold lock_cycle at hok
      split at hok
      · simp [Except.map] at hok
      · split at hok
        · simp [Except.map] at hok
        · simp [Except.map] at hok
          rw [← hok] at hvin
          exact hvout hvin
    | opUnlockCycle cid =>
      exfalso
      simp only [Op.applyDB] at hok
      unfold unlock_cycle at hok
      split at hok
      · simp [Except.map] at hok
      · split at hok
        · simp [Except.map] at hok
        · simp [Except.map] at hok
          rw [← hok] at hvin
          exact hvout hvin

/-- ACTIVE cycle for the C7 witness. -/
def cyc7 : VerificationCycle :=
  { id := 1, tag := "Q1", status := "ACTIVE", created_at := 0,
    locked_at := none }

/-- Asset for the C7 witness. -/
def a7 : Asset :=
  { id := 1, asset_code := "A1", name := "Printer", owner_id := none,
    is_active := true }

/-- Pre-existing verification row for the C7 witness. -/
def v7 : AssetVerification :=
  { id := 1, asset_id := 1, cycle_id := 1, performed_by := none,
    source := "SELF", status := "VERIFIED", condition := none,
    location_lat := none, location_lng := none, photos := none, notes := none,
    override_of_verification_id := none, override_reason := none,
    created_at := 1, verified_at := some 1 }

/-- Concrete store for the C7 witness. -/
def dbC7 : DB :=
  { assets := [a7], cycles := [cyc7], verifications := [v7],
    next_asset_id := 2, next_cycle_id := 2, next_verification_id := 2 }

/-- A forced-duplicate creation used by the C7 witness. -/
def opC7 : Op :=
  .opCreateVerification 9 1 1 none "AUDITOR" "VERIFIED" none none none none
    none true

/-- The row `opC7` appends. -/
def v7new : AssetVerification :=
  { id := 2, asset_id := 1, cycle_id := 1, performed_by := none,
    source := "AUDITOR", status := "VERIFIED", condition := none,
    location_lat := none, location_lng := none, photos := none, notes := none,
    override_of_verification_id := none, override_reason := none,
    created_at := 9, verified_at := some 9 }

/-- The store after `opC7`. -/
def dbC7res : DB :=
  { dbC7 with
    verifications := dbC7.verifications ++ [v7new],
    next_verification_id := 3 }

/-- Witness for C7: the forced-duplicate creation on `dbC7` appends one row
and keeps the old row intact. -/
theorem verifications_append_only_witness :
    (∃ new, dbC7res.verifications = dbC7.verifications ++ new) ∧
    (∀ v ∈ dbC7.verifications, v ∈ dbC7res.verifications) :=
  verifications_append_only opC7 dbC7 dbC7res rfl

/-- ACTIVE cycle for the C10 witness. -/
def cyc10 : VerificationCycle :=
  { id := 1, tag := "Q1", status := "ACTIVE", created_at := 0,
    locked_at := none }

/-- Asset for the C10 witness. -/
def a10 : Asset :=
  { id := 1, asset_code := "A1", name := "Printer", owner_id := none,
    is_active := true }

/-- Pre-existing verification for the C10 witness. -/
def v10 : AssetVerification :=
  { id := 1, asset_id := 1, cycle_id := 1, performed_by := none,
    source := "SELF", status := "VERIFIED", condition := none,
    location_lat := none, location_lng := none, photos := none, notes := none,
    override_of_verification_id := none, override_reason := none,
    created_at := 1, verified_at := some 1 }

/-- Concrete store for the C10 witness. -/
def dbC10 : DB :=
  { assets := [a10], cycles := [cyc10], verifications := [v10],
    next_asset_id := 2, next_cycle_id := 2, next_verification_id := 2 }

/-- Asset created by onboarding in the C10 witness. -/
def a10new : Asset :=
  { id := 2, asset_code := "B2", name := "Scanner", owner_id := none,
    is_active := true }

/-- Initial verification created by onboarding in the C10 witness. -/
def v10onb : AssetVerification :=
  { id := 2, asset_id := 2, cycle_id := 1, performed_by := none,
    source := "AUDITOR", status := "NEW_ASSET", condition := none,
    location_lat := none, location_lng := none, photos := none, notes := none,
    override_of_verification_id := none, override_reason := none,
    created_at := 5, verified_at := none }

/-- Row created by `create_verification` in the C10 witness. -/
def v10self : AssetVerification :=
  { id := 2, asset_id := 1, cycle_id := 1, performed_by := none,
    source := "SELF", status := "VERIFIED", condition := none,
    location_lat := none, location_lng := none, photos := none, notes := none,
    override_of_verification_id := none, override_reason := none,
    created_at := 6, verified_at := some 6 }

/-- Row created by `create_override` in the C10 witness. -/
def v10ov : AssetVerification :=
  { id := 2, asset_id := 1, cycle_id := 1, performed_by := none,
    source := "OVERRIDDEN", status := "VERIFIED", condition := none,
    location_lat := none, location_lng := none, photos := none, notes := none,
    override_of_verification_id := some 1, override_reason := some "fixed",
    created_at := 7, verified_at := some 7 }

/-- The onboarding operation of the C10 witness. -/
def opC10 : Op :=
  .opCreateAssetAndInitialVerification 5 "B2" "Scanner" 1 none none "AUDITOR"
    "NEW_ASSET" none none none none

/-- Witness for C10: the three creation paths at concrete inputs, and the
provenance conclusion for the onboarding-created null-`verified_at` row. -/
theorem verified_at_provenance_witness :
    v10onb.verified_at = none ∧ v10self.verified_at = some 6 ∧
    v10ov.verified_at = some 7 ∧ Op.isOnboarding opC10 := by
  have h := verified_at_provenance
  refine ⟨?_, ?_, ?_, ?_⟩
  · exact h.1 dbC10 5 "B2" "Scanner" 1 none none "AUDITOR" "NEW_ASSET" none
      none none none a10new v10onb _ (by rfl)
  · exact h.2.1 dbC10 6 1 1 none "SELF" "VERIFIED" none none none none none
      true v10self none false _ rfl
  · exact h.2.2.1 dbC10 7 1 none "OVERRIDDEN" "VERIFIED" none none none none
      none "fixed" v10ov _ rfl
  · exact h.2.2.2 opC10 dbC10 _ v10onb rfl (by decide) (by decide) rfl

/-- First verification row for the C1 store. -/
def v1a : AssetVerification :=
  { id := 1, asset_id := 1, cycle_id := 1, performed_by := none,
    source := "SELF", status := "VERIFIED", condition := none,
    location_lat := none, location_lng := none, photos := none, notes := none,
    override_of_verification_id := none, override_reason := none,
    created_at := 1, verified_at := some 1 }

/-- Second (previously forced duplicate) verification row for the C1 store. -/
def v1b : AssetVerification :=
  { id := 2, asset_id := 1, cycle_id := 1, performed_by := none,
    source := "AUDITOR", status := "DISCREPANCY", condition := none,
    location_lat := none, location_lng := none, photos := none, notes := none,
    override_of_verification_id := none, override_reason := none,
    created_at := 2, verified_at := some 2 }

/-- C1 store with two rows for the pair (asset 1, cycle 1), as left behind by
a forced duplicate (`allow_duplicate=true`). -/
def dbC1 : DB :=
  { assets := [{ id := 1, asset_code := "A1", name := "Printer",
                 owner_id := none, is_active := true }],
    cycles := [{ id := 1, tag := "Q1", status := "ACTIVE", created_at := 0,
                 locked_at := none }],
    verifications := [v1a, v1b],
    next_asset_id := 2, next_cycle_id := 2, next_verification_id := 3 }

/-- The same store with only the single row `v1a` for the pair. -/
def dbC1single : DB :=
  { dbC1 with verifications := [v1a], next_verification_id := 2 }

/-- C1 (code evaluated at the failing input): with two rows already present
for (asset 1, cycle 1), `create_verification` with `allow_duplicate=false`
does not return `(none, latest, duplicate=true)` — `find_existing_verification`
runs its un-limited ordered query through `scalar_one_or_none`, which raises
SQLAlchemy's `MultipleResultsFound`, contradicting the function's own
docstring ("Returns latest verification if exists").  With exactly one
existing row the documented soft-conflict answer is produced. -/
theorem createVerification_duplicate_check_crashes_on_forced_duplicates :
    create_verification dbC1 5 1 1 none "SELF" "VERIFIED" none none none none
      none false = .error .multipleResultsFound ∧
    create_verification dbC1single 5 1 1 none "SELF" "VERIFIED" none none none
      none none false = .ok ((none, some v1a, true), dbC1single) := by
  constructor
  · rfl
  · rfl

/-- C2: for every asset and cycle with a non-empty verification history,
`get_asset_cycle_detail` returns as history exactly the rows for the pair
(a permutation of the pair query, delivered newest-first), and as effective
record the most recent OVERRIDDEN row if one exists, otherwise the newest row
overall (`history[0]`). -/
theorem getAssetCycleDetail_spec :
    ∀ (db : DB) (asset : Asset) (cycle : VerificationCycle),
      db.wf → asset ∈ db.assets → cycle ∈ db.cycles →
      pairRows db asset.id cycle.id ≠ [] →
      ∃ eff history,
        get_asset_cycle_detail db asset.id cycle.id = .ok (some eff, history) ∧
        history.Perm (pairRows db asset.id cycle.id) ∧
        history.Pairwise (fun a b => b.created_at ≤ a.created_at) ∧
        ((∃ w ∈ pairRows db asset.id cycle.id, w.source = "OVERRIDDEN") →
          eff.source = "OVERRIDDEN" ∧ eff ∈ pairRows db asset.id cycle.id ∧
          ∀ w ∈ pairRows db asset.id cycle.id, w.source = "OVERRIDDEN" →
            w.created_at ≤ eff.created_at) ∧
        ((∀ w ∈ pairRows db asset.id cycle.id, w.source ≠ "OVERRIDDEN") →
          history.head? = some eff ∧ eff ∈ pairRows db asset.id cycle.id ∧
          ∀ w ∈ pairRows db asset.id cycle.id,
            w.created_at ≤ eff.created_at) := by
  intro db asset cycle hwf ha hc hne
  have hperm := perm_sortBy newerFirst (pairRows db asset.id cycle.id)
  have hsortB := pairwise_sortBy newerFirst newerFirst_trans newerFirst_total
    (pairRows db asset.id cycle.id)
  have hsort := history_sorted db asset.id cycle.id
  cases hL : select_verifications_for_asset_cycle db asset.id cycle.id with
  | nil =>
    exfalso
    apply hne
    have := hperm
    rw [show sortBy newerFirst (pairRows db asset.id cycle.id) =
      select_verifications_for_asset_cycle db asset.id cycle.id from rfl,
      hL] at this
    exact this.nil_eq.symm
  | cons h0 rest =>
    rw [show sortBy newerFirst (pairRows db asset.id cycle.id) =
      select_verifications_for_asset_cycle db asset.id cycle.id from rfl,
      hL] at hperm hsortB
    rw [hL] at hsort
    have hopen : get_asset_cycle_detail db asset.id cycle.id =
        match (h0 :: rest).find? (fun v => v.source == "OVERRIDDEN") with
        | some v => .ok (some v, h0 :: rest)
        | none => .ok (some h0, h0 :: rest) := by
      unfold get_asset_cycle_detail
      rw [get_asset_or_raise_ok db asset hwf.2.1 ha]
      dsimp only
      rw [get_cycle_or_raise_ok db cycle hwf.1 hc]
      dsimp only
      rw [hL]
    cases hfind : (h0 :: rest).find? (fun v => v.source == "OVERRIDDEN") with
    | some w =>
      rw [hfind] at hopen
      refine ⟨w, h0 :: rest, hopen, hperm, hsort, ?_, ?_⟩
      · intro _
        have hwsrc : w.source = "OVERRIDDEN" := by
          have := List.find?_some hfind
          simpa using this
        have hwmem : w ∈ pairRows db asset.id cycle.id :=
          hperm.mem_iff.mp (List.mem_of_find?_eq_some hfind)
        refine ⟨hwsrc, hwmem, ?_⟩
        intro v hv hvsrc
        have hvL : v ∈ h0 :: rest := hperm.mem_iff.mpr hv
        have := find_first_max newerFirst (fun v => v.source == "OVERRIDDEN")
          (h0 :: rest) hsortB w hfind v hvL (by simpa using hvsrc)
        rcases this with rfl | hle
        · exact le_refl _
        · simpa [newerFirst] using hle
      · intro hnone
        exfalso
        have hwmem : w ∈ pairRows db asset.id cycle.id :=
          hperm.mem_iff.mp (List.mem_of_find?_eq_some hfind)
        have hwsrc : w.source = "OVERRIDDEN" := by
          have := List.find?_some hfind
          simpa using this
        exact hnone w hwmem hwsrc
    | none =>
      rw [hfind] at hopen
      refine ⟨h0, h0 :: rest, hopen, hperm, hsort, ?_, ?_⟩
      · rintro ⟨w, hw, hwsrc⟩
        exfalso
        have hwL : w ∈ h0 :: rest := hperm.mem_iff.mpr hw
        have := List.find?_eq_none.mp hfind w hwL
        simp [hwsrc] at this
      · intro _
        refine ⟨rfl, hperm.mem_iff.mp (List.mem_cons_self h0 rest), ?_⟩
        intro v hv
        exact head_newest hsort v (hperm.mem_iff.mpr hv)

/-- Cycle for the C2 witness. -/
def cyc2 : VerificationCycle :=
  { id := 1, tag := "Q1", status := "ACTIVE", created_at := 0,
    locked_at := none }

/-- Asset for the C2 witness. -/
def a2 : Asset :=
  { id := 1, asset_code := "AST003", name := "Printer", owner_id := none,
    is_active := true }

/-- V1 of the C2 witness scenario: a DISCREPANCY self-verification. -/
def v2a : AssetVerification :=
  { id := 1, asset_id := 1, cycle_id := 1, performed_by := some "amy",
    source := "SELF", status := "DISCREPANCY", condition := some "DAMAGED",
    location_lat := none, location_lng := none, photos := none, notes := none,
    override_of_verification_id := none, override_reason := none,
    created_at := 1, verified_at := some 1 }

/-- V2 of the C2 witness scenario: the override of V1. -/
def v2b : AssetVerification :=
  { id := 2, asset_id := 1, cycle_id := 1, performed_by := some "bo",
    source := "OVERRIDDEN", status := "VERIFIED", condition := some "GOOD",
    location_lat := none, location_lng := none, photos := none, notes := none,
    override_of_verification_id := some 1, override_reason := some "repaired",
    created_at := 2, verified_at := some 2 }

/-- Concrete store for the C2 witness. -/
def dbC2 : DB :=
  { assets := [a2], cycles := [cyc2], verifications := [v2a, v2b],
    next_asset_id := 2, next_cycle_id := 2, next_verification_id := 3 }

/-- Witness for C2: the V1-then-override-V2 scenario; the evaluated call
returns V2 as effective with history `[V2, V1]`. -/
theorem getAssetCycleDetail_spec_witness :
    (∃ eff history,
      get_asset_cycle_detail dbC2 1 1 = .ok (some eff, history) ∧
      history.Perm (pairRows dbC2 1 1) ∧
      history.Pairwise (fun a b => b.created_at ≤ a.created_at) ∧
      ((∃ w ∈ pairRows dbC2 1 1, w.source = "OVERRIDDEN") →
        eff.source = "OVERRIDDEN" ∧ eff ∈ pairRows dbC2 1 1 ∧
        ∀ w ∈ pairRows dbC2 1 1, w.source = "OVERRIDDEN" →
          w.created_at ≤ eff.created_at) ∧
      ((∀ w ∈ pairRows dbC2 1 1, w.source ≠ "OVERRIDDEN") →
        history.head? = some eff ∧ eff ∈ pairRows dbC2 1 1 ∧
        ∀ w ∈ pairRows dbC2 1 1, w.created_at ≤ eff.created_at)) ∧
    get_asset_cycle_detail dbC2 1 1 = .ok (some v2b, [v2b, v2a]) :=
  ⟨getAssetCycleDetail_spec dbC2 a2 cyc2 (by decide) (by decide) (by decide)
    (by decide), rfl⟩

/-- C4: for an existing asset and cycle, `lookup_asset_for_cycle` reports
`already_verified = false` with no effective verification when the pair has
no rows, and otherwise `already_verified = true` with the newest row overall
(maximal `created_at`) as effective — override precedence is ignored, so an
OVERRIDDEN row elsewhere in the history does not change the answer. -/
theorem lookup_spec :
    ∀ (db : DB) (asset : Asset) (cycle : VerificationCycle),
      db.wf → asset ∈ db.assets → cycle ∈ db.cycles →
      (pairRows db asset.id cycle.id = [] →
        lookup_asset_for_cycle db asset.asset_code cycle.id =
          .ok (some asset, none, false)) ∧
      (pairRows db asset.id cycle.id ≠ [] →
        ∃ eff,
          lookup_asset_for_cycle db asset.asset_code cycle.id =
            .ok (some asset, some eff, true) ∧
          eff ∈ pairRows db asset.id cycle.id ∧
          ∀ v ∈ pairRows db asset.id cycle.id,
            v.created_at ≤ eff.created_at) := by
  intro db asset cycle hwf ha hc
  have hopen : ∀ L, select_verifications_for_asset_cycle db asset.id cycle.id = L →
      lookup_asset_for_cycle db asset.asset_code cycle.id =
        match L with
        | [] => .ok (some asset, none, false)
        | effective :: _ => .ok (some asset, some effective, true) := by
    intro L hLdef
    unfold lookup_asset_for_cycle
    rw [get_cycle_or_raise_ok db cycle hwf.1 hc]
    dsimp only
    rw [select_asset_by_code_singleton db asset hwf.2.2.1 ha]
    dsimp only [scalarOneOrNone]
    rw [hLdef]
  have hperm := perm_sortBy newerFirst (pairRows db asset.id cycle.id)
  have hsort := history_sorted db asset.id cycle.id
  constructor
  · intro hnil
    have hL : select_verifications_for_asset_cycle db asset.id cycle.id = [] := by
      unfold select_verifications_for_asset_cycle
      rw [hnil]
      rfl
    exact hopen [] hL
  · intro hne
    cases hL : select_verifications_for_asset_cycle db asset.id cycle.id with
    | nil =>
      exfalso
      apply hne
      rw [show sortBy newerFirst (pairRows db asset.id cycle.id) =
        select_verifications_for_asset_cycle db asset.id cycle.id from rfl,
        hL] at hperm
      exact hperm.nil_eq.symm
    | cons e rest =>
      rw [show sortBy newerFirst (pairRows db asset.id cycle.id) =
        select_verifications_for_asset_cycle db asset.id cycle.id from rfl,
        hL] at hperm
      rw [hL] at hsort
      refine ⟨e, hopen (e :: rest) hL, hperm.mem_iff.mp (List.mem_cons_self e rest), ?_⟩
      intro v hv
      exact head_newest hsort v (hperm.mem_iff.mpr hv)

/-- Cycle with rows for the C4 witness. -/
def cyc4 : VerificationCycle :=
  { id := 1, tag := "Q1", status := "ACTIVE", created_at := 0,
    locked_at := none }

/-- Cycle without rows for the C4 witness. -/
def cyc4b : VerificationCycle :=
  { id := 2, tag := "Q2", status := "ACTIVE", created_at := 1,
    locked_at := none }

/-- Asset for the C4 witness. -/
def a4 : Asset :=
  { id := 1, asset_code := "A1", name := "Printer", owner_id := none,
    is_active := true }

/-- Older OVERRIDDEN row for the C4 witness. -/
def v4a : AssetVerification :=
  { id := 1, asset_id := 1, cycle_id := 1, performed_by := none,
    source := "OVERRIDDEN", status := "VERIFIED", condition := none,
    location_lat := none, location_lng := none, photos := none, notes := none,
    override_of_verification_id := none, override_reason := some "audit",
    created_at := 1, verified_at := some 1 }

/-- Newer plain row for the C4 witness. -/
def v4b : AssetVerification :=
  { id := 2, asset_id := 1, cycle_id := 1, performed_by := none,
    source := "SELF", status := "DISCREPANCY", condition := none,
    location_lat := none, location_lng := none, photos := none, notes := none,
    override_of_verification_id := none, override_reason := none,
    created_at := 2, verified_at := some 2 }

/-- Concrete store for the C4 witness: the pair (asset 1, cycle 1) holds an
older OVERRIDDEN row and a newer plain row; cycle 2 holds nothing. -/
def dbC4 : DB :=
  { assets := [a4], cycles := [cyc4, cyc4b], verifications := [v4a, v4b],
    next_asset_id := 2, next_cycle_id := 3, next_verification_id := 3 }

/-- Witness for C4: the empty pair answers `(asset, none, false)`; the
non-empty pair answers the newest row overall — the evaluated call returns
the plain `v4b`, ignoring the OVERRIDDEN `v4a`. -/
theorem lookup_spec_witness :
    lookup_asset_for_cycle dbC4 "A1" 2 = .ok (some a4, none, false) ∧
    (∃ eff,
      lookup_asset_for_cycle dbC4 "A1" 1 = .ok (some a4, some eff, true) ∧
      eff ∈ pairRows dbC4 1 1 ∧
      ∀ v ∈ pairRows dbC4 1 1, v.created_at ≤ eff.created_at) ∧
    lookup_asset_for_cycle dbC4 "A1" 1 = .ok (some a4, some v4b, true) := by
  have h1 := lookup_spec dbC4 a4 cyc4 (by decide) (by decide) (by decide)
  have h2 := lookup_spec dbC4 a4 cyc4b (by decide) (by decide) (by decide)
  exact ⟨h2.1 (by decide), h1.2 (by decide), rfl⟩

/-- Whether an asset has at least one verification row in the cycle, computed
exactly as the anti-join subquery of `get_pending_assets` does: its id occurs
among the `asset_id`s of the cycle's verification rows. -/
def hasVerificationInCycle (db : DB) (a : Asset) (cycle_id : Nat) : Bool :=
  ((db.verifications.filter (fun v => v.cycle_id == cycle_id)).map
    (fun v => v.asset_id)).contains a.id

/-- `hasVerificationInCycle` agrees with the claim's wording: some
verification row of the cycle belongs to the asset. -/
theorem hasVerificationInCycle_iff (db : DB) (a : Asset) (cycle_id : Nat) :
    hasVerificationInCycle db a cycle_id = true ↔
      ∃ v ∈ db.verifications, v.cycle_id = cycle_id ∧ v.asset_id = a.id := by
  simp [hasVerificationInCycle, List.mem_filter, List.mem_map]
  constructor
  · rintro ⟨v, ⟨hv, hcid⟩, hid⟩
    exact ⟨v, hv, by simpa using hcid, hid⟩
  · rintro ⟨v, hv, hcid, hid⟩
    exact ⟨v, ⟨hv, by simpa using hcid⟩, hid⟩

/-- Inactive asset with a verification row, for the C6 counterexample. -/
def a6 : Asset :=
  { id := 1, asset_code := "A1", name := "Ghost", owner_id := none,
    is_active := false }

/-- Verification row of the inactive asset, for the C6 counterexample. -/
def v6 : AssetVerification :=
  { id := 1, asset_id := 1, cycle_id := 1, performed_by := none,
    source := "SELF", status := "VERIFIED", condition := none,
    location_lat := none, location_lng := none, photos := none, notes := none,
    override_of_verification_id := none, override_reason := none,
    created_at := 1, verified_at := some 1 }

/-- C6 counterexample store: one ACTIVE cycle and a single soft-deleted
(`is_active = false`) asset that still has a verification row in the cycle. -/
def dbC6 : DB :=
  { assets := [a6],
    cycles := [{ id := 1, tag := "Q1", status := "ACTIVE", created_at := 0,
                 locked_at := none }],
    verifications := [v6],
    next_asset_id := 2, next_cycle_id := 2, next_verification_id := 2 }

/-- C6 counterexample: in `dbC6` the pending list is empty, yet the inactive
asset `a6` has a verification row in the cycle, so (pending ∪ assets with a
verification row) contains `a6` while the active-asset set does not — the
claimed set equality fails. -/
theorem getPendingAssets_union_counterexample :
    get_pending_assets dbC6 1 = .ok [] ∧
    a6 ∈ dbC6.assets ∧ hasVerificationInCycle dbC6 a6 1 = true ∧
    a6.is_active = false ∧
    ¬ ((a6 ∈ ([] : List Asset) ∨ hasVerificationInCycle dbC6 a6 1 = true) ↔
        a6.is_active = true) := by decide

/-- C6 (amended): for every existing cycle, the pending list unioned with the
set of ACTIVE assets having at least one verification row in the cycle equals
the set of all active assets, the two sets are disjoint, and the pending list
is ordered by asset_code ascending; an absent cycle gives `CycleNotFound`. -/
theorem getPendingAssets_partition :
    ∀ (db : DB) (cycle_id : Nat),
      db.wf →
      ((∀ c ∈ db.cycles, c.id ≠ cycle_id) →
        get_pending_assets db cycle_id = .error .cycleNotFound) ∧
      (∀ cycle ∈ db.cycles, cycle.id = cycle_id →
        ∃ pending,
          get_pending_assets db cycle_id = .ok pending ∧
          pending.Pairwise (fun a b => a.asset_code ≤ b.asset_code) ∧
          (∀ a, a ∈ pending ↔ a ∈ db.assets ∧ a.is_active = true ∧
            hasVerificationInCycle db a cycle_id = false) ∧
          (∀ a ∈ db.assets,
            ((a ∈ pending ∨ (a.is_active = true ∧
              hasVerificationInCycle db a cycle_id = true)) ↔
              a.is_active = true)) ∧
          (∀ a, ¬ (a ∈ pending ∧
            hasVerificationInCycle db a cycle_id = true))) := by
  intro db cycle_id hwf
  constructor
  · intro h
    unfold get_pending_assets
    rw [get_cycle_or_raise_absent db cycle_id h]
  · intro cycle hc hcid
    subst hcid
    have hok : get_pending_assets db cycle.id = .ok (sortBy codeAsc
        (db.assets.filter (fun a => a.is_active &&
          !(((db.verifications.filter (fun v => v.cycle_id == cycle.id)).map
            (fun v => v.asset_id)).contains a.id)))) := by
      unfold get_pending_assets
      rw [get_cycle_or_raise_ok db cycle hwf.1 hc]
    have hmem : ∀ a, (a ∈ sortBy codeAsc
        (db.assets.filter (fun a => a.is_active &&
          !(((db.verifications.filter (fun v => v.cycle_id == cycle.id)).map
            (fun v => v.asset_id)).contains a.id)))) ↔
        a ∈ db.assets ∧ a.is_active = true ∧
          hasVerificationInCycle db a cycle.id = false := by
      intro a
      rw [mem_sortBy]
      simp [List.mem_filter, hasVerificationInCycle, Bool.and_eq_true,
        Bool.not_eq_true']
    refine ⟨_, hok, ?_, hmem, ?_, ?_⟩
    · have hp := pairwise_sortBy codeAsc codeAsc_trans codeAsc_total
        (db.assets.filter (fun a => a.is_active &&
          !(((db.verifications.filter (fun v => v.cycle_id == cycle.id)).map
            (fun v => v.asset_id)).contains a.id)))
      refine hp.imp ?_
      intro a b hab
      rw [codeAsc, strLe_iff] at hab
      exact hab
    · intro a ha
      constructor
      · rintro (hp | ⟨hact, _⟩)
        · exact ((hmem a).mp hp).2.1
        · exact hact
      · intro hact
        cases hv : hasVerificationInCycle db a cycle.id with
        | true => exact Or.inr ⟨hact, rfl⟩
        | false => exact Or.inl ((hmem a).mpr ⟨ha, hact, hv⟩)
    · rintro a ⟨hp, htrue⟩
      rw [((hmem a).mp hp).2.2] at htrue
      cases htrue

/-- Cycle for the C6 witness. -/
def cyc6w : VerificationCycle :=
  { id := 1, tag := "Q1", status := "ACTIVE", created_at := 0,
    locked_at := none }

/-- Active asset already verified in the cycle (C6 witness). -/
def aw1 : Asset :=
  { id := 1, asset_code := "A", name := "Printer", owner_id := none,
    is_active := true }

/-- Active unverified asset with the later code (C6 witness). -/
def aw2 : Asset :=
  { id := 2, asset_code := "C", name := "Desk", owner_id := none,
    is_active := true }

/-- Active unverified asset with the earlier code (C6 witness). -/
def aw3 : Asset :=
  { id := 3, asset_code := "B", name := "Chair", owner_id := none,
    is_active := true }

/-- Verification row of `aw1` (C6 witness). -/
def vw1 : AssetVerification :=
  { id := 1, asset_id := 1, cycle_id := 1, performed_by := none,
    source := "SELF", status := "VERIFIED", condition := none,
    location_lat := none, location_lng := none, photos := none, notes := none,
    override_of_verification_id := none, override_reason := none,
    created_at := 1, verified_at := some 1 }

/-- Concrete store for the C6 witness. -/
def dbC6w : DB :=
  { assets := [aw1, aw2, aw3], cycles := [cyc6w], verifications := [vw1],
    next_asset_id := 4, next_cycle_id := 2, next_verification_id := 2 }

/-- Witness for C6 (amended): absent cycle fails; for cycle 1 the pending
list partitions the active assets against the verified ones and comes out
code-sorted — concretely `[aw3, aw2]` (codes "B", "C"). -/
theorem getPendingAssets_partition_witness :
    get_pending_assets dbC6w 99 = .error .cycleNotFound ∧
    (∃ pending,
      get_pending_assets dbC6w 1 = .ok pending ∧
      pending.Pairwise (fun a b => a.asset_code ≤ b.asset_code) ∧
      (∀ a, a ∈ pending ↔ a ∈ dbC6w.assets ∧ a.is_active = true ∧
        hasVerificationInCycle dbC6w a 1 = false) ∧
      (∀ a ∈ dbC6w.assets,
        ((a ∈ pending ∨ (a.is_active = true ∧
          hasVerificationInCycle dbC6w a 1 = true)) ↔ a.is_active = true)) ∧
      (∀ a, ¬ (a ∈ pending ∧ hasVerificationInCycle dbC6w a 1 = true))) ∧
    get_pending_assets dbC6w 1 = .ok [aw3, aw2] := by
  have h99 := getPendingAssets_partition dbC6w 99 (by decide)
  have h1 := getPendingAssets_partition dbC6w 1 (by decide)
  exact ⟨h99.1 (by decide), h1.2 cyc6w (by decide) (by decide), by decide⟩
